import Mathlib

set_option maxHeartbeats 1600000

/-!
Verification development for the vp9-parser library (`src/lib.rs`).

The embedding below transliterates the Rust source.  Machine integers
(`u8`, `u16`, `usize`, `i8`, `i16`, `i32`) are modelled as `Nat`/`Int`;
Rust's checked (debug) arithmetic is modelled by an explicit `panicked`
outcome raised on overflow, underflow, out-of-bounds indexing, and shift
amounts that reach the integer width.  Fallible operations return an
outcome type carrying the `Vp9ParserError` of `src/error.rs`; operations
on `&mut self` additionally return the (possibly partially mutated)
parser state, because in Rust mutations made before an early `?` return
persist in `self`.
-/

namespace Vp9

/-- Errors of `src/error.rs` (`Vp9ParserError`).  The payloads of the
wrapped foreign errors are irrelevant to control flow and are dropped. -/
inductive Vp9ParserError where
  | BitReaderError
  | IoError
  | TryFromSliceError
  | TryFromIntError
  | InvalidFrameMarker
  | InvalidPadding
  | InvalidSyncByte
  | InvalidRefFrameIndex
  | InvalidMetadata
  | InvalidFrameSizeByteSize (n : Nat)
deriving DecidableEq, Repr

/-- Outcome of a state-free fallible operation: `Ok`, `Err`, or a Rust
panic (out-of-bounds indexing / checked-arithmetic overflow). -/
inductive ROut (α : Type) where
  | ok (a : α)
  | err (e : Vp9ParserError)
  | panicked
deriving DecidableEq, Repr

/-- The VP9 profiles (`Profile`). -/
inductive Profile where
  | Unknown
  | Profile0
  | Profile1
  | Profile2
  | Profile3
deriving DecidableEq, Repr

/-- Models `impl From<u8> for Profile`. -/
def Profile.from_u8 (i : Nat) : Profile :=
  match i with
  | 0 => .Profile0
  | 1 => .Profile1
  | 2 => .Profile2
  | 3 => .Profile3
  | _ => .Unknown

/-- Declaration-order rank backing the derived `Ord` of `Profile`. -/
def Profile.rank : Profile → Nat
  | .Unknown => 0
  | .Profile0 => 1
  | .Profile1 => 2
  | .Profile2 => 3
  | .Profile3 => 4

/-- Chroma subsampling as defined in the Metadata (`MetadataSubsampling`). -/
inductive MetadataSubsampling where
  | Unknown
  | Yuv420
  | Yuv420Colocated
  | Yuv422
  | Yuv444
deriving DecidableEq, Repr

/-- Models `impl From<u8> for MetadataSubsampling`. -/
def MetadataSubsampling.from_u8 (d : Nat) : MetadataSubsampling :=
  match d with
  | 0 => .Yuv420
  | 1 => .Yuv420Colocated
  | 2 => .Yuv422
  | 3 => .Yuv444
  | _ => .Unknown

/-- Color space (`ColorSpace`). -/
inductive ColorSpace where
  | Unknown
  | Bt601
  | Bt709
  | Smpte170
  | Smpte240
  | Bt2020
  | Reserved
  | Rgb
deriving DecidableEq, Repr

/-- Models `impl From<u8> for ColorSpace`. -/
def ColorSpace.from_u8 (i : Nat) : ColorSpace :=
  match i with
  | 1 => .Bt601
  | 2 => .Bt709
  | 3 => .Smpte170
  | 4 => .Smpte240
  | 5 => .Bt2020
  | 6 => .Reserved
  | 7 => .Rgb
  | _ => .Unknown

/-- Color depth (`ColorDepth`). -/
inductive ColorDepth where
  | Unknown
  | Depth8
  | Depth10
  | Depth12
deriving DecidableEq, Repr

/-- Models `impl From<u8> for ColorDepth`. -/
def ColorDepth.from_u8 (d : Nat) : ColorDepth :=
  match d with
  | 8 => .Depth8
  | 10 => .Depth10
  | 12 => .Depth12
  | _ => .Unknown

/-- Color range (`ColorRange`). -/
inductive ColorRange where
  | StudioSwing
  | FullSwing
deriving DecidableEq, Repr

/-- Models `impl From<bool> for ColorRange`. -/
def ColorRange.from_bool (b : Bool) : ColorRange :=
  match b with
  | false => .StudioSwing
  | true => .FullSwing

/-- Interpolation filter (`InterpolationFilter`). -/
inductive InterpolationFilter where
  | Unknown
  | Eighttap
  | EighttapSmooth
  | EighttapSharp
  | Bilinear
  | Switchable
deriving DecidableEq, Repr

/-- Frame type (`FrameType`). -/
inductive FrameType where
  | KeyFrame
  | NonKeyFrame
deriving DecidableEq, Repr

/-- Models `impl From<bool> for FrameType`. -/
def FrameType.from_bool (b : Bool) : FrameType :=
  match b with
  | false => .KeyFrame
  | true => .NonKeyFrame

/-- Frame context reset mode (`ResetFrameContext`). -/
inductive ResetFrameContext where
  | Unknown
  | No0
  | No1
  | SingleReset
  | FullReset
deriving DecidableEq, Repr

/-- Models `impl From<u8> for ResetFrameContext`. -/
def ResetFrameContext.from_u8 (i : Nat) : ResetFrameContext :=
  match i with
  | 0 => .No0
  | 1 => .No1
  | 2 => .SingleReset
  | 3 => .FullReset
  | _ => .Unknown

/-- The codec level (`Level`). -/
inductive Level where
  | Unknown
  | Level1
  | Level1_1
  | Level2
  | Level2_1
  | Level3
  | Level3_1
  | Level4
  | Level4_1
  | Level5
  | Level5_1
  | Level5_2
  | Level6
  | Level6_1
  | Level6_2
deriving DecidableEq, Repr

/-- Models `impl From<u8> for Level`. -/
def Level.from_u8 (d : Nat) : Level :=
  match d with
  | 10 => .Level1
  | 11 => .Level1_1
  | 20 => .Level2
  | 21 => .Level2_1
  | 30 => .Level3
  | 31 => .Level3_1
  | 40 => .Level4
  | 41 => .Level4_1
  | 50 => .Level5
  | 51 => .Level5_1
  | 52 => .Level5_2
  | 60 => .Level6
  | 61 => .Level6_1
  | 62 => .Level6_2
  | _ => .Unknown

/-! ## Codec private metadata (`Metadata`) -/

/-- VP9 codec feature metadata (`Metadata`). -/
structure Metadata where
  profile : Profile
  level : Level
  color_depth : ColorDepth
  chroma_subsampling : MetadataSubsampling
deriving DecidableEq, Repr

/-- Models `Metadata::read_feature`: reads `data[pos]` and `data[pos + 1]`
(the `*pos += 2` advance is performed by the caller's loop below).
Both indexing operations panic when out of bounds, modelled by `none`. -/
def Metadata.read_feature (pos : Nat) (data : List Nat) :
    Option (Nat × Nat) :=
  if h : pos < data.length then
    if h2 : pos + 1 < data.length then
      some (data.get ⟨pos, h⟩, data.get ⟨pos + 1, h2⟩)
    else none
  else none

/-- Structural worker for the `while pos < data.len()` loop of
`Metadata::new`.  The counter starts at `data.length - pos` and each
iteration advances `pos` by 2, so the counter never runs out before the
loop condition fails; when it is 0 the condition `pos < data.length`
is false and the loop exits with the pairs collected so far. -/
def read_features_go : Nat → Nat → List Nat → Option (List (Nat × Nat))
  | 0, _, _ => some []
  | fuel + 1, pos, data =>
    if pos < data.length then
      match Metadata.read_feature pos data with
      | none => none
      | some (id, value) =>
        match read_features_go fuel (pos + 2) data with
        | none => none
        | some rest => some ((id, value) :: rest)
    else some []

/-- The `while pos < data.len()` loop of `Metadata::new`, collecting the
`(id, value)` pairs in read order (`HashMap::insert` overwrites, so a
later pair for the same id shadows an earlier one). -/
def Metadata.read_features (pos : Nat) (data : List Nat) :
    Option (List (Nat × Nat)) :=
  read_features_go (data.length - pos) pos data

/-- Models `HashMap::get(&k)` after all inserts: the value of the last pair
with key `k`, if any. -/
def features_get (features : List (Nat × Nat)) (k : Nat) : Option Nat :=
  (features.reverse.find? (fun p => p.1 = k)).map (·.2)

/-- Models `Metadata::new` (`parse_codec_private`).  Note: the source looks up
feature id `1` a second time for `chroma_subsampling` (src/lib.rs:340)
and never consults feature id `4`. -/
def Metadata.new (data : List Nat) : ROut Metadata :=
  match Metadata.read_features 0 data with
  | none => .panicked
  | some features =>
    match features_get features 1 with
    | none => .err .InvalidMetadata
    | some profile =>
      match features_get features 2 with
      | none => .err .InvalidMetadata
      | some level =>
        match features_get features 3 with
        | none => .err .InvalidMetadata
        | some color_depth =>
          match features_get features 1 with
          | none => .err .InvalidMetadata
          | some chroma_subsampling =>
            .ok { profile := Profile.from_u8 profile,
                  level := Level.from_u8 level,
                  color_depth := ColorDepth.from_u8 color_depth,
                  chroma_subsampling :=
                    MetadataSubsampling.from_u8 chroma_subsampling }

/-! ## Bit reader (`bitreader::BitReader`) -/

/-- The bit reader over an immutable byte buffer: the buffer and the
current bit position. -/
structure Br where
  data : List Nat
  pos : Nat
deriving DecidableEq, Repr

/-- Bit `p` (counting from the most significant bit of byte 0) of the
buffer. -/
def getBit (data : List Nat) (p : Nat) : Nat :=
  (data.getD (p / 8) 0 >>> (7 - p % 8)) % 2

/-- Big-endian value of the `n` bits starting at bit position `pos`. -/
def bitsValue (data : List Nat) (pos n : Nat) : Nat :=
  (List.range n).foldl (fun acc i => 2 * acc + getBit data (pos + i)) 0

/-- Models `BitReader::read_u8` / `read_u16`: read `n` bits big-endian;
`NotEnoughData` (wrapped as `BitReaderError`) past end of buffer. -/
def Br.read (br : Br) (n : Nat) : ROut (Nat × Br) :=
  if br.pos + n ≤ 8 * br.data.length then
    .ok (bitsValue br.data br.pos n, ⟨br.data, br.pos + n⟩)
  else .err .BitReaderError

/-- Models `BitReader::read_bool`: one bit as a boolean. -/
def Br.readBool (br : Br) : ROut (Bool × Br) :=
  match br.read 1 with
  | .ok (v, br') => .ok (v = 1, br')
  | .err e => .err e
  | .panicked => .panicked

/-- Models `SignedRead::read_inverse_i8` (also models `read_inverse_i16`):
`bits` magnitude bits, then one sign bit; negated when the sign bit is
set.  The `i8::try_from` in the source cannot fail for the widths used
(`bits < 8`), and neither can the `i16` variant (`bits ≤ 8`). -/
def Br.read_inverse (br : Br) (bits : Nat) : ROut (Int × Br) :=
  match br.read bits with
  | .ok (value, br1) =>
    match br1.readBool with
    | .ok (sign, br2) =>
      .ok (if sign then -(value : Int) else (value : Int), br2)
    | .err e => .err e
    | .panicked => .panicked
  | .err e => .err e
  | .panicked => .panicked

/-! ## Parser state (`Vp9Parser`)

The cross-frame parser state; one field per Rust struct field, in source
order.  `u8`/`u16`/`usize` fields are `Nat`, `i8`/`i32` fields are `Int`,
fixed-size arrays are `List`s (mutated element-wise with `List.set`, as
the source assigns elements), except `ref_frame_sizes : [(u16, u16); 8]`
which is a total function out of `Fin 8`. -/
structure Vp9Parser where
  ref_frame_sizes : Fin 8 → Nat × Nat
  profile : Profile
  show_existing_frame : Bool
  frame_to_show_map_idx : Option Nat
  last_frame_type : FrameType
  frame_type : FrameType
  show_frame : Bool
  error_resilient_mode : Bool
  intra_only : Bool
  reset_frame_context : ResetFrameContext
  ref_frame_indices : List Nat
  ref_frame_sign_bias : List Bool
  allow_high_precision_mv : Bool
  refresh_frame_context : Bool
  refresh_frame_flags : Nat
  frame_parallel_decoding_mode : Bool
  frame_context_idx : Nat
  color_depth : ColorDepth
  color_space : ColorSpace
  color_range : ColorRange
  subsampling_x : Bool
  subsampling_y : Bool
  width : Nat
  height : Nat
  render_width : Nat
  render_height : Nat
  mi_cols : Nat
  mi_rows : Nat
  tile_rows_log2 : Nat
  tile_cols_log2 : Nat
  interpolation_filter : InterpolationFilter
  loop_filter_level : Nat
  loop_filter_sharpness : Nat
  loop_filter_delta_enabled : Bool
  update_ref_delta : Bool
  loop_filter_ref_deltas : List Int
  update_mode_delta : Bool
  loop_filter_mode_deltas : List Int
  base_q_idx : Int
  delta_q_y_dc : Int
  delta_q_uv_dc : Int
  delta_q_uv_ac : Int
  lossless : Bool
  segmentation_enabled : Bool
  segmentation_update_map : Bool
  segment_tree_probs : List Nat
  segment_pred_probs : List Nat
  segmentation_temporal_update : Bool
  segmentation_update_data : Bool
  segmentation_abs_or_delta_update : Bool
  segment_feature_active : List (List Bool)
  segment_feature_data : List (List Int)

/-- Models `impl Default for Vp9Parser`. -/
def Vp9Parser.default : Vp9Parser where
  ref_frame_sizes := fun _ => (0, 0)
  show_existing_frame := false
  frame_to_show_map_idx := none
  profile := Profile.Profile0
  last_frame_type := FrameType.NonKeyFrame
  frame_type := FrameType.NonKeyFrame
  show_frame := false
  error_resilient_mode := false
  intra_only := false
  reset_frame_context := ResetFrameContext.No0
  refresh_frame_flags := 0
  ref_frame_indices := [0, 0, 0]
  ref_frame_sign_bias := [false, false, false, false]
  allow_high_precision_mv := false
  refresh_frame_context := false
  frame_parallel_decoding_mode := true
  frame_context_idx := 0
  color_depth := ColorDepth.Depth8
  color_space := ColorSpace.Unknown
  color_range := ColorRange.StudioSwing
  subsampling_x := true
  subsampling_y := true
  width := 0
  height := 0
  render_width := 0
  render_height := 0
  mi_cols := 0
  mi_rows := 0
  tile_rows_log2 := 0
  tile_cols_log2 := 0
  interpolation_filter := InterpolationFilter.Eighttap
  loop_filter_level := 0
  loop_filter_sharpness := 0
  loop_filter_delta_enabled := false
  update_ref_delta := false
  loop_filter_ref_deltas := [1, 0, -1, -1]
  update_mode_delta := false
  loop_filter_mode_deltas := [0, 0]
  base_q_idx := 0
  delta_q_y_dc := 0
  delta_q_uv_dc := 0
  delta_q_uv_ac := 0
  lossless := false
  segmentation_enabled := false
  segmentation_update_map := false
  segment_tree_probs := [0, 0, 0, 0, 0, 0, 0]
  segment_pred_probs := [0, 0, 0]
  segmentation_temporal_update := false
  segmentation_update_data := false
  segmentation_abs_or_delta_update := false
  segment_feature_active :=
    [[false, false, false, false], [false, false, false, false],
     [false, false, false, false], [false, false, false, false],
     [false, false, false, false], [false, false, false, false],
     [false, false, false, false], [false, false, false, false]]
  segment_feature_data :=
    [[0, 0, 0, 0], [0, 0, 0, 0], [0, 0, 0, 0], [0, 0, 0, 0],
     [0, 0, 0, 0], [0, 0, 0, 0], [0, 0, 0, 0], [0, 0, 0, 0]]

/-- Outcome of an operation on `&mut self`: on `Err`, Rust keeps the
mutations made before the early `?` return, so the error constructor
carries the parser state at the moment of the error. -/
inductive POut (α : Type) where
  | ok (a : α)
  | err (s : Vp9Parser) (e : Vp9ParserError)
  | panicked

/-- Sequencing a state-free fallible step (`expr?` on a `BitReader`
operation): on error, the current parser state `s` is what `self` holds. -/
def rstep {α β : Type} (s : Vp9Parser) (r : ROut α) (k : α → POut β) :
    POut β :=
  match r with
  | .ok a => k a
  | .err e => .err s e
  | .panicked => .panicked

/-- Sequencing a state-carrying fallible step (`self.helper(...)?`). -/
def pstep {α β : Type} (r : POut α) (k : α → POut β) : POut β :=
  match r with
  | .ok a => k a
  | .err s e => .err s e
  | .panicked => .panicked

/-- Sequencing a step that can only panic (checked arithmetic). -/
def ostep {α β : Type} (r : Option α) (k : α → POut β) : POut β :=
  match r with
  | some a => k a
  | none => .panicked

/-- Sequencing for state-free computations. -/
def rbind {α β : Type} (r : ROut α) (k : α → ROut β) : ROut β :=
  match r with
  | .ok a => k a
  | .err e => .err e
  | .panicked => .panicked

/-! ## Uncompressed-header helper methods of `impl Vp9Parser` -/

/-- Models `Vp9Parser::refresh_ref_frames` (spec 8.10): every slot whose bit is
set in `refresh_frame_flags` receives the current `(width, height)`. -/
def refresh_ref_frames (s : Vp9Parser) : Vp9Parser :=
  { s with ref_frame_sizes := fun i =>
      if (s.refresh_frame_flags >>> i.val) % 2 = 1 then (s.width, s.height)
      else s.ref_frame_sizes i }

/-- Models `Vp9Parser::frame_sync_code` (`&self`, so state-free): the error is
raised only when all three sync bytes differ from the expected values. -/
def frame_sync_code (br : Br) : ROut Br :=
  rbind (br.read 8) fun (frame_sync_byte_0, br) =>
  rbind (br.read 8) fun (frame_sync_byte_1, br) =>
  rbind (br.read 8) fun (frame_sync_byte_2, br) =>
  if frame_sync_byte_0 ≠ 0x49 ∧ frame_sync_byte_1 ≠ 0x83 ∧
      frame_sync_byte_2 ≠ 0x42 then
    .err .InvalidSyncByte
  else .ok br

/-- Color-depth part of `Vp9Parser::color_config`. -/
def color_config_depth (s : Vp9Parser) (br : Br) : POut (Vp9Parser × Br) :=
  if Profile.rank Profile.Profile2 ≤ s.profile.rank then
    rstep s br.readBool fun (ten_or_twelve_bit, br) =>
    .ok ({ s with color_depth :=
            if ten_or_twelve_bit then ColorDepth.Depth12
            else ColorDepth.Depth10 }, br)
  else .ok ({ s with color_depth := ColorDepth.Depth8 }, br)

/-- Models `Vp9Parser::color_config`. -/
def color_config (s : Vp9Parser) (br : Br) : POut (Vp9Parser × Br) :=
  pstep (color_config_depth s br) fun (s, br) =>
  rstep s (br.read 3) fun (cs, br) =>
  let s := { s with color_space := ColorSpace.from_u8 cs }
  if s.color_space = ColorSpace.Rgb then
    let s := { s with color_range := ColorRange.FullSwing }
    if s.profile = Profile.Profile1 ∨ s.profile = Profile.Profile3 then
      let s := { s with subsampling_x := false, subsampling_y := false }
      rstep s (br.read 1) fun (_reserved_zero, br) => .ok (s, br)
    else .ok (s, br)
  else
    rstep s br.readBool fun (b, br) =>
    let s := { s with color_range := ColorRange.from_bool b }
    if s.profile = Profile.Profile1 ∨ s.profile = Profile.Profile3 then
      rstep s br.readBool fun (sx, br) =>
      let s := { s with subsampling_x := sx }
      rstep s br.readBool fun (sy, br) =>
      let s := { s with subsampling_y := sy }
      rstep s (br.read 1) fun (_reserved_zero, br) => .ok (s, br)
    else .ok ({ s with subsampling_x := true, subsampling_y := true }, br)

/-- Models `Vp9Parser::compute_image_size`; the `u16` additions are checked
(`none` = overflow panic). -/
def compute_image_size (s : Vp9Parser) : Option Vp9Parser :=
  if s.width + 7 ≤ 65535 ∧ s.height + 7 ≤ 65535 then
    some { s with mi_cols := (s.width + 7) >>> 3,
                  mi_rows := (s.height + 7) >>> 3 }
  else none

/-- Models `Vp9Parser::frame_size`; `width = frame_width_minus_1 + 1` is a
checked `u16` addition. -/
def frame_size (s : Vp9Parser) (br : Br) : POut (Vp9Parser × Br) :=
  rstep s (br.read 16) fun (frame_width_minus_1, br) =>
  rstep s (br.read 16) fun (frame_height_minus_1, br) =>
  if frame_width_minus_1 + 1 ≤ 65535 ∧ frame_height_minus_1 + 1 ≤ 65535 then
    let s := { s with width := frame_width_minus_1 + 1,
                      height := frame_height_minus_1 + 1 }
    ostep (compute_image_size s) fun s => .ok (s, br)
  else .panicked

/-- Models `Vp9Parser::render_size`. -/
def render_size (s : Vp9Parser) (br : Br) : POut (Vp9Parser × Br) :=
  rstep s br.readBool fun (render_and_frame_size_different, br) =>
  if render_and_frame_size_different then
    rstep s (br.read 16) fun (render_width_minus_1, br) =>
    rstep s (br.read 16) fun (render_height_minus_1, br) =>
    if render_width_minus_1 + 1 ≤ 65535 ∧ render_height_minus_1 + 1 ≤ 65535 then
      .ok ({ s with render_width := render_width_minus_1 + 1,
                    render_height := render_height_minus_1 + 1 }, br)
    else .panicked
  else .ok ({ s with render_width := s.width, render_height := s.height }, br)

/-- Body of the `found_ref` branch of `Vp9Parser::frame_size_with_refs`
for loop iteration `i`. -/
def fswr_found (s : Vp9Parser) (br : Br) (i : Nat) : POut (Vp9Parser × Br) :=
  let idx := s.ref_frame_indices.getD i 0
  if h : idx < 8 then
    let sizes := s.ref_frame_sizes ⟨idx, h⟩
    let s := { s with width := sizes.1, height := sizes.2 }
    ostep (compute_image_size s) fun s => render_size s br
  else .err s .InvalidRefFrameIndex

/-- Models `Vp9Parser::frame_size_with_refs` (loop over `i in 0..3` unrolled). -/
def frame_size_with_refs (s : Vp9Parser) (br : Br) : POut (Vp9Parser × Br) :=
  rstep s br.readBool fun (found_ref0, br) =>
  if found_ref0 then fswr_found s br 0 else
  rstep s br.readBool fun (found_ref1, br) =>
  if found_ref1 then fswr_found s br 1 else
  rstep s br.readBool fun (found_ref2, br) =>
  if found_ref2 then fswr_found s br 2 else
  pstep (frame_size s br) fun (s, br) =>
  render_size s br

/-- Models `Vp9Parser::read_interpolation_filter`. -/
def read_interpolation_filter (s : Vp9Parser) (br : Br) :
    POut (Vp9Parser × Br) :=
  rstep s br.readBool fun (is_filter_switchable, br) =>
  if is_filter_switchable then
    .ok ({ s with interpolation_filter := InterpolationFilter.Switchable }, br)
  else
    rstep s (br.read 2) fun (raw_interpolation_filter, br) =>
    .ok ({ s with interpolation_filter :=
            match raw_interpolation_filter with
            | 0 => InterpolationFilter.EighttapSmooth
            | 1 => InterpolationFilter.Eighttap
            | 2 => InterpolationFilter.EighttapSharp
            | 3 => InterpolationFilter.Bilinear
            | _ => InterpolationFilter.Unknown }, br)

/-- One iteration of the `loop_filter_ref_deltas` update loop of
`Vp9Parser::loop_filter_params` (element `i`). -/
def lf_ref_delta_step (i : Nat) (s : Vp9Parser) (br : Br) :
    POut (Vp9Parser × Br) :=
  rstep s br.readBool fun (update, br) =>
  if update then
    rstep s (br.read_inverse 6) fun (v, br) =>
    .ok ({ s with loop_filter_ref_deltas := s.loop_filter_ref_deltas.set i v },
         br)
  else .ok (s, br)

/-- One iteration of the `loop_filter_mode_deltas` update loop of
`Vp9Parser::loop_filter_params` (element `i`). -/
def lf_mode_delta_step (i : Nat) (s : Vp9Parser) (br : Br) :
    POut (Vp9Parser × Br) :=
  rstep s br.readBool fun (update, br) =>
  if update then
    rstep s (br.read_inverse 6) fun (v, br) =>
    .ok ({ s with loop_filter_mode_deltas := s.loop_filter_mode_deltas.set i v },
         br)
  else .ok (s, br)

/-- Models `Vp9Parser::loop_filter_params` (the two fixed-length delta loops
are unrolled into their per-element steps). -/
def loop_filter_params (s : Vp9Parser) (br : Br) : POut (Vp9Parser × Br) :=
  rstep s (br.read 6) fun (lvl, br) =>
  let s := { s with loop_filter_level := lvl }
  rstep s (br.read 3) fun (sharp, br) =>
  let s := { s with loop_filter_sharpness := sharp }
  rstep s br.readBool fun (delta_enabled, br) =>
  let s := { s with loop_filter_delta_enabled := delta_enabled }
  if delta_enabled then
    rstep s br.readBool fun (loop_filter_delta_update, br) =>
    if loop_filter_delta_update then
      pstep (lf_ref_delta_step 0 s br) fun (s, br) =>
      pstep (lf_ref_delta_step 1 s br) fun (s, br) =>
      pstep (lf_ref_delta_step 2 s br) fun (s, br) =>
      pstep (lf_ref_delta_step 3 s br) fun (s, br) =>
      pstep (lf_mode_delta_step 0 s br) fun (s, br) =>
      pstep (lf_mode_delta_step 1 s br) fun (s, br) =>
      .ok (s, br)
    else .ok (s, br)
  else .ok (s, br)

/-- Models `Vp9Parser::read_delta_q` (`&self`, state-free). -/
def read_delta_q (br : Br) : ROut (Int × Br) :=
  rbind br.readBool fun (delta_coded, br) =>
  if delta_coded then br.read_inverse 4 else .ok (0, br)

/-- Models `Vp9Parser::quantization_params`. -/
def quantization_params (s : Vp9Parser) (br : Br) : POut (Vp9Parser × Br) :=
  rstep s (br.read 8) fun (bq, br) =>
  let s := { s with base_q_idx := (bq : Int) }
  rstep s (read_delta_q br) fun (dy, br) =>
  let s := { s with delta_q_y_dc := dy }
  rstep s (read_delta_q br) fun (duvdc, br) =>
  let s := { s with delta_q_uv_dc := duvdc }
  rstep s (read_delta_q br) fun (duvac, br) =>
  let s := { s with delta_q_uv_ac := duvac }
  .ok ({ s with lossless :=
          s.base_q_idx == 0 && s.delta_q_y_dc == 0 && s.delta_q_uv_dc == 0 &&
            s.delta_q_uv_ac == 0 }, br)

/-- Models `Vp9Parser::read_prob` (static, state-free). -/
def read_prob (br : Br) : ROut (Nat × Br) :=
  rbind br.readBool fun (prob_coded, br) =>
  if prob_coded then br.read 8 else .ok (255, br)

/-- Models `m[i][j] = v` on a two-dimensional array modelled as nested lists. -/
def set2 {α : Type} (m : List (List α)) (i j : Nat) (v : α) : List (List α) :=
  m.set i ((m.getD i []).set j v)

/-- One iteration of the `segment_tree_probs` fill loop of
`Vp9Parser::segmentation_params` (element `i`). -/
def seg_tree_prob_step (i : Nat) (s : Vp9Parser) (br : Br) :
    POut (Vp9Parser × Br) :=
  rstep s (read_prob br) fun (p, br) =>
  .ok ({ s with segment_tree_probs := s.segment_tree_probs.set i p }, br)

/-- One iteration of the `segment_pred_probs` fill loop of
`Vp9Parser::segmentation_params` (element `i`). -/
def seg_pred_prob_step (i : Nat) (s : Vp9Parser) (br : Br) :
    POut (Vp9Parser × Br) :=
  if s.segmentation_temporal_update then
    rstep s (read_prob br) fun (p, br) =>
    .ok ({ s with segment_pred_probs := s.segment_pred_probs.set i p }, br)
  else .ok ({ s with segment_pred_probs := s.segment_pred_probs.set i 255 }, br)

/-- One iteration of the per-segment feature loop of
`Vp9Parser::segmentation_params` (segment `i`; features
`SEG_LVL_ALT_Q = 0`, `SEG_LVL_ALT_L = 1`, `SEG_LVL_REF_FRAME = 2`,
`SEG_LVL_SKIP = 3`). -/
def seg_feature_step (i : Nat) (s : Vp9Parser) (br : Br) :
    POut (Vp9Parser × Br) :=
  rstep s br.readBool fun (aq, br) =>
  let s := { s with segment_feature_active := set2 s.segment_feature_active i 0 aq }
  pstep (if aq then
           rstep s (br.read_inverse 8) fun (v, br) =>
           .ok ({ s with segment_feature_data := set2 s.segment_feature_data i 0 v }, br)
         else .ok (s, br)) fun (s, br) =>
  rstep s br.readBool fun (al, br) =>
  let s := { s with segment_feature_active := set2 s.segment_feature_active i 1 al }
  pstep (if al then
           rstep s (br.read_inverse 6) fun (v, br) =>
           .ok ({ s with segment_feature_data := set2 s.segment_feature_data i 1 v }, br)
         else .ok (s, br)) fun (s, br) =>
  rstep s br.readBool fun (arf, br) =>
  let s := { s with segment_feature_active := set2 s.segment_feature_active i 2 arf }
  pstep (if arf then
           rstep s (br.read_inverse 2) fun (v, br) =>
           .ok ({ s with segment_feature_data := set2 s.segment_feature_data i 2 v }, br)
         else .ok (s, br)) fun (s, br) =>
  rstep s br.readBool fun (askip, br) =>
  let s := { s with segment_feature_active := set2 s.segment_feature_active i 3 askip }
  .ok ({ s with segment_feature_data := set2 s.segment_feature_data i 3 0 }, br)

/-- The `segmentation_update_map` part of `Vp9Parser::segmentation_params`
(fixed-length fill loops unrolled). -/
def seg_update_map_part (s : Vp9Parser) (br : Br) : POut (Vp9Parser × Br) :=
  pstep (seg_tree_prob_step 0 s br) fun (s, br) =>
  pstep (seg_tree_prob_step 1 s br) fun (s, br) =>
  pstep (seg_tree_prob_step 2 s br) fun (s, br) =>
  pstep (seg_tree_prob_step 3 s br) fun (s, br) =>
  pstep (seg_tree_prob_step 4 s br) fun (s, br) =>
  pstep (seg_tree_prob_step 5 s br) fun (s, br) =>
  pstep (seg_tree_prob_step 6 s br) fun (s, br) =>
  rstep s br.readBool fun (tu, br) =>
  let s := { s with segmentation_temporal_update := tu }
  pstep (seg_pred_prob_step 0 s br) fun (s, br) =>
  pstep (seg_pred_prob_step 1 s br) fun (s, br) =>
  pstep (seg_pred_prob_step 2 s br) fun (s, br) =>
  .ok (s, br)

/-- The `segmentation_update_data` segment loop of
`Vp9Parser::segmentation_params` (`MAX_SEGMENTS = 8`, unrolled). -/
def seg_update_data_part (s : Vp9Parser) (br : Br) : POut (Vp9Parser × Br) :=
  pstep (seg_feature_step 0 s br) fun (s, br) =>
  pstep (seg_feature_step 1 s br) fun (s, br) =>
  pstep (seg_feature_step 2 s br) fun (s, br) =>
  pstep (seg_feature_step 3 s br) fun (s, br) =>
  pstep (seg_feature_step 4 s br) fun (s, br) =>
  pstep (seg_feature_step 5 s br) fun (s, br) =>
  pstep (seg_feature_step 6 s br) fun (s, br) =>
  pstep (seg_feature_step 7 s br) fun (s, br) =>
  .ok (s, br)

/-- Models `Vp9Parser::segmentation_params`. -/
def segmentation_params (s : Vp9Parser) (br : Br) : POut (Vp9Parser × Br) :=
  rstep s br.readBool fun (enabled, br) =>
  let s := { s with segmentation_enabled := enabled }
  if enabled then
    rstep s br.readBool fun (update_map, br) =>
    let s := { s with segmentation_update_map := update_map }
    pstep (if update_map then seg_update_map_part s br else .ok (s, br))
      fun (s, br) =>
    rstep s br.readBool fun (update_data, br) =>
    let s := { s with segmentation_update_data := update_data }
    if update_data then
      rstep s br.readBool fun (abs_upd, br) =>
      let s := { s with segmentation_abs_or_delta_update := abs_upd }
      seg_update_data_part s br
    else .ok (s, br)
  else .ok (s, br)

/-- The `while (MAX_TILE_WIDTH_B64 << min_log2) < sb64_cols` loop of
`Vp9Parser::calc_min_log2_tile_cols`.  The shift is on a `u8`
(`MAX_TILE_WIDTH_B64 = 64`), hence the `% 256` truncation of the shifted
value and the panic when the shift amount reaches 8 (checked shift
overflow).  The structural counter is exactly `8 - min_log2`, so the
worker panics precisely when the shift amount reaches 8. -/
def min_log2_loop_go : Nat → Nat → Nat → ROut Nat
  | 0, _, _ => .panicked
  | fuel + 1, sb64_cols, min_log2 =>
    if (64 <<< min_log2) % 256 < sb64_cols then
      min_log2_loop_go fuel sb64_cols (min_log2 + 1)
    else .ok min_log2

def min_log2_loop (sb64_cols min_log2 : Nat) : ROut Nat :=
  min_log2_loop_go (8 - min_log2) sb64_cols min_log2

/-- The `while (sb64_cols >> max_log2) >= MIN_TILE_WIDTH_B64` loop of
`Vp9Parser::calc_max_log2_tile_cols` (`MIN_TILE_WIDTH_B64 = 4`), with
the same `8 - max_log2` counter as `min_log2_loop` (a shift amount of 8
on a `u8` would panic; with `sb64_cols ≤ 255` the loop in fact always
stops at `max_log2 ≤ 6`). -/
def max_log2_loop_go : Nat → Nat → Nat → ROut Nat
  | 0, _, _ => .panicked
  | fuel + 1, sb64_cols, max_log2 =>
    if 4 ≤ sb64_cols >>> max_log2 then
      max_log2_loop_go fuel sb64_cols (max_log2 + 1)
    else .ok max_log2

def max_log2_loop (sb64_cols max_log2 : Nat) : ROut Nat :=
  max_log2_loop_go (8 - max_log2) sb64_cols max_log2

/-- Models `Vp9Parser::calc_min_log2_tile_cols`; `sb64_cols` is the result of a
`u16` checked addition followed by `try_into::<u8>()`
(`TryFromIntError` when above 255). -/
def calc_min_log2_tile_cols (s : Vp9Parser) : ROut Nat :=
  if s.mi_cols + 7 ≤ 65535 then
    let sb64_cols := (s.mi_cols + 7) >>> 3
    if sb64_cols ≤ 255 then min_log2_loop sb64_cols 0
    else .err .TryFromIntError
  else .panicked

/-- Models `Vp9Parser::calc_max_log2_tile_cols`. -/
def calc_max_log2_tile_cols (s : Vp9Parser) : ROut Nat :=
  if s.mi_cols + 7 ≤ 65535 then
    let sb64_cols := (s.mi_cols + 7) >>> 3
    if sb64_cols ≤ 255 then
      rbind (max_log2_loop sb64_cols 1) fun max_log2 => .ok (max_log2 - 1)
    else .err .TryFromIntError
  else .panicked

/-- The column loop of `Vp9Parser::tile_info`, exactly as written in the
source (src/lib.rs:1452-1459): the loop condition tests
`self.tile_rows_log2` while the loop body increments
`self.tile_cols_log2` (a checked `u8` addition), so the condition never
changes inside the loop; it terminates only on a zero bit or on reader
exhaustion.  The single-bit read is inlined (`bitsValue _ _ 1` is the
value `Br.readBool` returns).  The structural counter starts at
`8 * |data| + 1 - pos` and each iteration consumes one bit, so it
reaches 0 only when the position is past the buffer, where the loop
(if its condition holds) fails with `BitReaderError` exactly as the
counter-0 case does. -/
def tile_cols_loop_go : Nat → Vp9Parser → Nat → Br → POut (Vp9Parser × Br)
  | 0, s, max_log2_tile_cols, br =>
    if s.tile_rows_log2 < max_log2_tile_cols then .err s .BitReaderError
    else .ok (s, br)
  | fuel + 1, s, max_log2_tile_cols, br =>
    if s.tile_rows_log2 < max_log2_tile_cols then
      if br.pos + 1 ≤ 8 * br.data.length then
        if bitsValue br.data br.pos 1 = 1 then
          if s.tile_cols_log2 + 1 ≤ 255 then
            tile_cols_loop_go fuel
              { s with tile_cols_log2 := s.tile_cols_log2 + 1 }
              max_log2_tile_cols ⟨br.data, br.pos + 1⟩
          else .panicked
        else .ok (s, ⟨br.data, br.pos + 1⟩)
      else .err s .BitReaderError
    else .ok (s, br)

def tile_cols_loop (s : Vp9Parser) (max_log2_tile_cols : Nat) (br : Br) :
    POut (Vp9Parser × Br) :=
  tile_cols_loop_go (8 * br.data.length + 1 - br.pos) s max_log2_tile_cols br

/-- Models `Vp9Parser::tile_info`.  Note (src/lib.rs:1451) that the minimum is
assigned to `tile_rows_log2`, not `tile_cols_log2`. -/
def tile_info (s : Vp9Parser) (br : Br) : POut (Vp9Parser × Br) :=
  rstep s (calc_min_log2_tile_cols s) fun min_log2_tile_cols =>
  rstep s (calc_max_log2_tile_cols s) fun max_log2_tile_cols =>
  let s := { s with tile_rows_log2 := min_log2_tile_cols }
  pstep (tile_cols_loop s max_log2_tile_cols br) fun (s, br) =>
  rstep s (br.read 1) fun (r, br) =>
  let s := { s with tile_rows_log2 := r }
  if s.tile_rows_log2 = 1 then
    rstep s (br.read 1) fun (increment_tile_rows_log2, br) =>
    .ok ({ s with tile_rows_log2 := s.tile_rows_log2 + increment_tile_rows_log2 },
         br)
  else .ok (s, br)

/-- Models `Vp9Parser::trailing_bits`, exactly as written in the source
(src/lib.rs:1488-1497): the loop runs `while br.is_aligned(1)`, i.e.
while the bit position IS a multiple of 8; each iteration reads one bit
and raises `InvalidPadding` if it is set.  Reading one bit leaves the
position unaligned, so the loop body runs at most once and the
structural counter 8 is never the limiting factor. -/
def trailing_bits_go : Nat → Br → ROut Br
  | 0, br => .ok br
  | fuel + 1, br =>
    if br.pos % 8 = 0 then
      if br.pos + 1 ≤ 8 * br.data.length then
        if bitsValue br.data br.pos 1 = 1 then .err .InvalidPadding
        else trailing_bits_go fuel ⟨br.data, br.pos + 1⟩
      else .err .BitReaderError
    else .ok br

def trailing_bits (br : Br) : ROut Br :=
  trailing_bits_go 8 br

/-! ## The frame descriptor (`Frame`) -/

/-- A VP9 frame descriptor.  `Frame::new` copies every parser field
verbatim into the descriptor, with one exception: the descriptor's
`show_frame` field is assigned from `parser.show_existing_frame`
(src/lib.rs:456).  The copies are modelled by keeping the snapshot `st`
of the parser state passed to `Frame::new`; each accessor below reads
the snapshot field that `Frame::new` assigns to it. -/
structure Frame where
  data : List Nat
  uncompressed_header_size : Nat
  compressed_header_size : Nat
  tile_size : Nat
  st : Vp9Parser

/-- Models `Frame::new`. -/
def Frame.new (parser : Vp9Parser) (uncompressed_header_size : Nat)
    (compressed_header_size : Nat) (tile_size : Nat) (data : List Nat) :
    Frame :=
  ⟨data, uncompressed_header_size, compressed_header_size, tile_size, parser⟩

/-- Models `Frame::profile`. -/
def Frame.profile (f : Frame) : Profile := f.st.profile

/-- Models `Frame::show_existing_frame`. -/
def Frame.show_existing_frame (f : Frame) : Bool := f.st.show_existing_frame

/-- Models `Frame::frame_to_show_map_idx`. -/
def Frame.frame_to_show_map_idx (f : Frame) : Option Nat :=
  f.st.frame_to_show_map_idx

/-- Models `Frame::last_frame_type`. -/
def Frame.last_frame_type (f : Frame) : FrameType := f.st.last_frame_type

/-- Models `Frame::frame_type`. -/
def Frame.frame_type (f : Frame) : FrameType := f.st.frame_type

/-- Models `Frame::show_frame` — the descriptor field that `Frame::new` fills
from `parser.show_existing_frame` (src/lib.rs:456). -/
def Frame.show_frame (f : Frame) : Bool := f.st.show_existing_frame

/-- Models `Frame::refresh_frame_flags`. -/
def Frame.refresh_frame_flags (f : Frame) : Nat := f.st.refresh_frame_flags

/-- Models `Frame::width`. -/
def Frame.width (f : Frame) : Nat := f.st.width

/-- Models `Frame::height`. -/
def Frame.height (f : Frame) : Nat := f.st.height

/-- Models `Frame::tile_rows_log2`. -/
def Frame.tile_rows_log2 (f : Frame) : Nat := f.st.tile_rows_log2

/-- Models `Frame::tile_cols_log2`. -/
def Frame.tile_cols_log2 (f : Frame) : Nat := f.st.tile_cols_log2

/-! ## `Vp9Parser::parse_vp9_frame` -/

/-- Models `if !self.show_frame { intra_only = read_bool } else { false }`
(src/lib.rs:1116-1120). -/
def intra_only_read (s : Vp9Parser) (br : Br) : POut (Vp9Parser × Br) :=
  if !s.show_frame then
    rstep s br.readBool fun (io, br) =>
    .ok ({ s with intra_only := io }, br)
  else .ok ({ s with intra_only := false }, br)

/-- Models `reset_frame_context` read (src/lib.rs:1122-1126). -/
def reset_frame_context_read (s : Vp9Parser) (br : Br) :
    POut (Vp9Parser × Br) :=
  if !s.error_resilient_mode then
    rstep s (br.read 2) fun (v, br) =>
    .ok ({ s with reset_frame_context := ResetFrameContext.from_u8 v }, br)
  else .ok ({ s with reset_frame_context := ResetFrameContext.No0 }, br)

/-- One iteration of the reference-index loop (src/lib.rs:1143-1146;
`LAST_FRAME = 1`). -/
def ref_frames_read (i : Nat) (s : Vp9Parser) (br : Br) :
    POut (Vp9Parser × Br) :=
  rstep s (br.read 3) fun (idx, br) =>
  let s := { s with ref_frame_indices := s.ref_frame_indices.set i idx }
  rstep s br.readBool fun (sb, br) =>
  .ok ({ s with ref_frame_sign_bias := s.ref_frame_sign_bias.set (1 + i) sb },
       br)

/-- Frame-type dispatch of `parse_vp9_frame` (src/lib.rs:1103-1151):
frame type, show/error-resilient bits, then the key-frame or
non-key-frame header section. -/
def frame_kind (s : Vp9Parser) (br : Br) : POut (Vp9Parser × Br) :=
  let s := { s with last_frame_type := s.frame_type }
  rstep s br.readBool fun (ft, br) =>
  let s := { s with frame_type := FrameType.from_bool ft }
  rstep s br.readBool fun (sf, br) =>
  let s := { s with show_frame := sf }
  rstep s br.readBool fun (erm, br) =>
  let s := { s with error_resilient_mode := erm }
  if s.frame_type = FrameType.KeyFrame then
    rstep s (frame_sync_code br) fun br =>
    pstep (color_config s br) fun (s, br) =>
    pstep (frame_size s br) fun (s, br) =>
    pstep (render_size s br) fun (s, br) =>
    .ok ({ s with refresh_frame_flags := 0xFF }, br)
  else
    pstep (intra_only_read s br) fun (s, br) =>
    pstep (reset_frame_context_read s br) fun (s, br) =>
    if s.intra_only then
      rstep s (frame_sync_code br) fun br =>
      pstep (if Profile.rank Profile.Profile0 < s.profile.rank then
               color_config s br
             else
               .ok ({ s with color_depth := ColorDepth.Depth8,
                             color_space := ColorSpace.Bt601,
                             subsampling_x := true,
                             subsampling_y := true }, br)) fun (s, br) =>
      rstep s (br.read 8) fun (rff, br) =>
      let s := { s with refresh_frame_flags := rff }
      pstep (frame_size s br) fun (s, br) =>
      render_size s br
    else
      rstep s (br.read 8) fun (rff, br) =>
      let s := { s with refresh_frame_flags := rff }
      pstep (ref_frames_read 0 s br) fun (s, br) =>
      pstep (ref_frames_read 1 s br) fun (s, br) =>
      pstep (ref_frames_read 2 s br) fun (s, br) =>
      pstep (frame_size_with_refs s br) fun (s, br) =>
      rstep s br.readBool fun (ahpm, br) =>
      let s := { s with allow_high_precision_mv := ahpm }
      read_interpolation_filter s br

/-- Models `refresh_frame_context` / `frame_parallel_decoding_mode` read
(src/lib.rs:1153-1159). -/
def refresh_context_read (s : Vp9Parser) (br : Br) : POut (Vp9Parser × Br) :=
  if !s.error_resilient_mode then
    rstep s br.readBool fun (rfc, br) =>
    let s := { s with refresh_frame_context := rfc }
    rstep s br.readBool fun (fpdm, br) =>
    .ok ({ s with frame_parallel_decoding_mode := fpdm }, br)
  else
    .ok ({ s with refresh_frame_context := false,
                  frame_parallel_decoding_mode := false }, br)

/-- Tail of `parse_vp9_frame` (src/lib.rs:1153-1201): context bits,
loop-filter-delta reset, parameter sections, compressed-header size,
trailing bits, the size arithmetic, `Frame::new`, and
`refresh_ref_frames`.  `tile_size = size - (uhs + chs)` is a checked
`usize` subtraction. -/
def fci_force (s : Vp9Parser) : Vp9Parser :=
  if s.intra_only ∨ s.error_resilient_mode then
    { s with frame_context_idx := 0 }
  else s

/-- The loop-filter-delta reset of src/lib.rs:1167-1175 (element-wise
array assignments). -/
def lf_delta_reset (s : Vp9Parser) : Vp9Parser :=
  if s.frame_type = FrameType.KeyFrame ∨ s.error_resilient_mode ∨
      s.intra_only then
    { s with
      loop_filter_ref_deltas :=
        (((s.loop_filter_ref_deltas.set 0 1).set 1 0).set 2 (-1)).set 3 (-1),
      loop_filter_mode_deltas := (s.loop_filter_mode_deltas.set 0 0).set 1 0 }
  else s

def frame_tail (s : Vp9Parser) (br : Br) (data : List Nat) :
    POut (Vp9Parser × Frame) :=
  pstep (refresh_context_read s br) fun (s, br) =>
  rstep s (br.read 2) fun (fci, br) =>
  let s := lf_delta_reset (fci_force { s with frame_context_idx := fci })
  pstep (loop_filter_params s br) fun (s, br) =>
  pstep (quantization_params s br) fun (s, br) =>
  pstep (segmentation_params s br) fun (s, br) =>
  pstep (tile_info s br) fun (s, br) =>
  rstep s (br.read 16) fun (compressed_header_size, br) =>
  rstep s (trailing_bits br) fun br =>
  let uncompressed_header_size := br.pos / 8
  let size := data.length
  if uncompressed_header_size + compressed_header_size ≤ size then
    let tile_size := size - (uncompressed_header_size + compressed_header_size)
    let frame := Frame.new s uncompressed_header_size compressed_header_size
      tile_size data
    .ok (refresh_ref_frames s, frame)
  else .panicked

/-- Models `Vp9Parser::parse_vp9_frame` (src/lib.rs:1075-1202). -/
def parse_vp9_frame (s : Vp9Parser) (data : List Nat) :
    POut (Vp9Parser × Frame) :=
  let br : Br := ⟨data, 0⟩
  rstep s (br.read 2) fun (frame_marker, br) =>
  if frame_marker ≠ 2 then .err s .InvalidFrameMarker
  else
    rstep s (br.read 1) fun (profile_low_bit, br) =>
    rstep s (br.read 1) fun (profile_high_bit, br) =>
    let s := { s with profile :=
                Profile.from_u8 ((profile_high_bit <<< 1) + profile_low_bit) }
    pstep (if s.profile = Profile.Profile3 then
             rstep s (br.read 1) fun (_reserved_zero, br) => .ok (s, br)
           else .ok (s, br)) fun (s, br) =>
    rstep s br.readBool fun (sef, br) =>
    let s := { s with show_existing_frame := sef }
    if sef then
      rstep s (br.read 3) fun (idx, _br) =>
      let s := { s with frame_to_show_map_idx := some idx,
                        refresh_frame_flags := 0, loop_filter_level := 0 }
      .ok (s, Frame.new s 0 0 0 [])
    else
      let s := { s with frame_to_show_map_idx := none }
      pstep (frame_kind s br) fun (s, br) =>
      frame_tail s br data

/-! ## `Vp9Parser::parse_vp9_packet` -/

/-- Models `Vp9Parser::read_frame_size` (`&self`, state-free): little-endian
value of index entry `index`.  An out-of-range slice panics; the
`u32 → usize` conversions in the 3- and 4-byte arms cannot fail on a
64-bit target. -/
def read_frame_size (entry_data : List Nat) (bytes_size index : Nat) :
    ROut Nat :=
  match bytes_size with
  | 1 =>
    if index + 1 ≤ entry_data.length then .ok (entry_data.getD index 0)
    else .panicked
  | 2 =>
    if index * 2 + 2 ≤ entry_data.length then
      .ok (entry_data.getD (index * 2) 0 + 256 * entry_data.getD (index * 2 + 1) 0)
    else .panicked
  | 3 =>
    if index * 3 + 3 ≤ entry_data.length then
      .ok (entry_data.getD (index * 3) 0 + 256 * entry_data.getD (index * 3 + 1) 0 +
        65536 * entry_data.getD (index * 3 + 2) 0)
    else .panicked
  | 4 =>
    if index * 4 + 4 ≤ entry_data.length then
      .ok (entry_data.getD (index * 4) 0 + 256 * entry_data.getD (index * 4 + 1) 0 +
        65536 * entry_data.getD (index * 4 + 2) 0 +
        16777216 * entry_data.getD (index * 4 + 3) 0)
    else .panicked
  | n => .err (.InvalidFrameSizeByteSize n)

/-- The `_` (more than two frames) superframe arm of
`parse_vp9_packet` (src/lib.rs:1026-1038): for each frame index, read
the size, split the packet, parse, append, continue on the remainder.
`Vec::split_off` panics when the size exceeds the remaining length.
The structural counter is exactly `frame_count - frame_index`, so the
counter-0 case coincides with the loop's exit condition. -/
def superframe_loop_go : Nat → Vp9Parser → List Nat → Nat → List Nat →
    Nat → Nat → List Frame → POut (Vp9Parser × List Frame)
  | 0, s, _, _, _, _, _, frames => .ok (s, frames)
  | fuel + 1, s, entry_data, bytes_size, packet, frame_index, frame_count,
      frames =>
    rstep s (read_frame_size entry_data bytes_size frame_index)
      fun frame_size =>
    if frame_size ≤ packet.length then
      let left_over := packet.drop frame_size
      pstep (parse_vp9_frame s (packet.take frame_size)) fun (s, frame) =>
      superframe_loop_go fuel s entry_data bytes_size left_over
        (frame_index + 1) frame_count (frames ++ [frame])
    else .panicked

def superframe_loop (s : Vp9Parser) (entry_data : List Nat) (bytes_size : Nat)
    (packet : List Nat) (frame_index frame_count : Nat)
    (frames : List Frame) : POut (Vp9Parser × List Frame) :=
  superframe_loop_go (frame_count - frame_index) s entry_data bytes_size
    packet frame_index frame_count frames

/-- The fall-through "normal frame" path of `parse_vp9_packet`
(src/lib.rs:1045-1047). -/
def parse_normal_frame (s : Vp9Parser) (packet : List Nat) :
    POut (Vp9Parser × List Frame) :=
  pstep (parse_vp9_frame s packet) fun (s, frame) =>
  .ok (s, [frame])

/-- Models `Vp9Parser::parse_vp9_packet` (src/lib.rs:975-1048).
`packet.len() - index_size` is a checked `usize` subtraction (in release
mode the wrapped value would make the subsequent indexing panic
instead), and `Vec::split_off` panics on an out-of-range split point. -/
def parse_vp9_packet (s : Vp9Parser) (packet : List Nat) :
    POut (Vp9Parser × List Frame) :=
  if packet.length = 0 then .ok (s, [])
  else
    let last_byte_index := packet.length - 1
    let last_byte := packet.getD last_byte_index 0
    if last_byte &&& 0xE0 = 0xC0 then
      let bytes_per_framesize_minus_1 := (last_byte &&& 0x18) >>> 3
      let frames_in_superframe_minus_1 := last_byte &&& 0x7
      let bytes_size := bytes_per_framesize_minus_1 + 1
      let frame_count := frames_in_superframe_minus_1 + 1
      let index_size := 2 + frame_count * bytes_size
      if index_size ≤ packet.length then
        let first_byte_index := packet.length - index_size
        let first_byte := packet.getD first_byte_index 0
        if first_byte = last_byte then
          let index_start := first_byte_index + 1
          let entry_size := frame_count * bytes_size
          let entry_data := (packet.drop index_start).take entry_size
          match frame_count with
          | 1 =>
            rstep s (read_frame_size entry_data bytes_size 0) fun frame_size =>
            pstep (parse_vp9_frame s (packet.take frame_size))
              fun (s, frame) =>
            .ok (s, [frame])
          | 2 =>
            rstep s (read_frame_size entry_data bytes_size 0) fun frame_size =>
            if frame_size ≤ packet.length then
              let left_over := packet.drop frame_size
              pstep (parse_vp9_frame s (packet.take frame_size))
                fun (s, first_frame) =>
              rstep s (read_frame_size entry_data bytes_size 1)
                fun frame_size2 =>
              pstep (parse_vp9_frame s (left_over.take frame_size2))
                fun (s, second_frame) =>
              .ok (s, [first_frame, second_frame])
            else .panicked
          | _ => superframe_loop s entry_data bytes_size packet 0 frame_count []
        else parse_normal_frame s packet
      else .panicked
    else parse_normal_frame s packet

/-! ## Result extractors (used to state concrete evaluations) -/

/-- Whether an outcome is `Ok`. -/
def POut.isOk {α : Type} : POut α → Bool
  | .ok _ => true
  | _ => false

/-- Whether an outcome is `Err`. -/
def POut.isErr {α : Type} : POut α → Bool
  | .err _ _ => true
  | _ => false

/-- The parser state held in an outcome (`Ok` or `Err`). -/
def outState {β : Type} : POut (Vp9Parser × β) → Vp9Parser
  | .ok (s, _) => s
  | .err s _ => s
  | .panicked => Vp9Parser.default

/-- The frame of a successful `parse_vp9_frame` outcome. -/
def outFrame : POut (Vp9Parser × Frame) → Frame
  | .ok (_, f) => f
  | _ => Frame.new Vp9Parser.default 0 0 0 []

/-- The frame list of a successful `parse_vp9_packet` outcome. -/
def outFrames : POut (Vp9Parser × List Frame) → List Frame
  | .ok (_, fs) => fs
  | _ => []

/-- The error of an `Err` outcome. -/
def outErr {α : Type} : POut α → Vp9ParserError
  | .err _ e => e
  | _ => .BitReaderError

/-- The bit reader of a successful header-section helper outcome. -/
def outBr : POut (Vp9Parser × Br) → Br
  | .ok (_, br) => br
  | _ => ⟨[], 0⟩

/-- Fallback frame for `List.getD`. -/
def dFrame : Frame := Frame.new Vp9Parser.default 0 0 0 []

/-- The size equation of a frame descriptor: the three sizes sum to the
length of the bytes the descriptor owns. -/
def SizesOk (f : Frame) : Prop :=
  f.uncompressed_header_size + f.compressed_header_size + f.tile_size =
    f.data.length

/-- A minimal 15-byte key-frame payload: frame marker 2, profile 0,
show_existing_frame 0, key frame, show_frame bit SET, not error
resilient, sync code 49 83 42, Bt601, studio swing, 64×64, same render
size, all later header fields zero, compressed_header_size 0; the
uncompressed header occupies 113 bits (14 whole bytes), leaving one
tile byte. -/
def keyframePacket : List Nat :=
  [0x82, 0x49, 0x83, 0x42, 0x20, 0x03, 0xF0, 0x03, 0xF0, 0x00, 0x00, 0x00,
   0x00, 0x00, 0x00]

/-- A one-byte show-existing-frame payload: marker 2, profile 0,
show_existing_frame 1, frame_to_show_map_idx 5. -/
def sefPacket : List Nat := [0x8D]

/-- A two-frame superframe: two one-byte show-existing frames followed
by a 6-byte index (marker 0xC9, two 16-bit little-endian sizes 1 and 1,
marker 0xC9). -/
def superPacket : List Nat := [0x8D, 0x8D, 0xC9, 0x01, 0x00, 0x01, 0x00, 0xC9]

/-- A one-byte packet that passes the frame-marker and profile reads,
reads frame type KeyFrame and show_frame = true, then exhausts the
reader inside the key-frame sync code. -/
def errPacket : List Nat := [0x82]

/-! ## Preservation infrastructure

No helper of `parse_vp9_frame` writes `ref_frame_sizes` (only
`refresh_ref_frames`, at the very end of a successful parse, does) or
`show_existing_frame` (written only in the prologue).  `StCore`
records those two facts about a state transition; `PresP` lifts it
over an outcome, and `PresErr` asks for it on error outcomes only. -/

/-- The two parser fields no header-section helper writes. -/
def StCore (s s' : Vp9Parser) : Prop :=
  s'.ref_frame_sizes = s.ref_frame_sizes ∧
    s'.show_existing_frame = s.show_existing_frame

theorem StCore.rfl (s : Vp9Parser) : StCore s s := ⟨Eq.refl _, Eq.refl _⟩

theorem StCore.trans {a b c : Vp9Parser} (h1 : StCore a b) (h2 : StCore b c) :
    StCore a c := ⟨h2.1.trans h1.1, h2.2.trans h1.2⟩

/-- Models `StCore` holds from `s` into every state an outcome carries. -/
def PresP {β : Type} (s : Vp9Parser) : POut (Vp9Parser × β) → Prop
  | .ok (s', _) => StCore s s'
  | .err s' _ => StCore s s'
  | .panicked => True

/-- Models `StCore` holds from `s` into the state carried by an error outcome. -/
def PresErr {β : Type} (s : Vp9Parser) : POut (Vp9Parser × β) → Prop
  | .ok _ => True
  | .err s' _ => StCore s s'
  | .panicked => True

theorem PresP.toPresErr {β : Type} {s : Vp9Parser}
    {r : POut (Vp9Parser × β)} (h : PresP s r) : PresErr s r := by
  cases r with
  | ok a => trivial
  | err s' e => exact h
  | panicked => trivial

theorem presP_mono {β : Type} {s s1 : Vp9Parser} {r : POut (Vp9Parser × β)}
    (hc : StCore s s1) (h : PresP s1 r) : PresP s r := by
  cases r with
  | ok a => exact hc.trans h
  | err s' e => exact hc.trans h
  | panicked => trivial

theorem presErr_mono {β : Type} {s s1 : Vp9Parser} {r : POut (Vp9Parser × β)}
    (hc : StCore s s1) (h : PresErr s1 r) : PresErr s r := by
  cases r with
  | ok a => trivial
  | err s' e => exact hc.trans h
  | panicked => trivial

theorem rstep_pres {α β : Type} (s : Vp9Parser) (r : ROut α)
    (k : α → POut (Vp9Parser × β)) (hk : ∀ a, PresP s (k a)) :
    PresP s (rstep s r k) := by
  cases r with
  | ok a => exact hk a
  | err e => exact StCore.rfl s
  | panicked => trivial

theorem rstep_pres_err {α β : Type} (s : Vp9Parser) (r : ROut α)
    (k : α → POut (Vp9Parser × β)) (hk : ∀ a, PresErr s (k a)) :
    PresErr s (rstep s r k) := by
  cases r with
  | ok a => exact hk a
  | err e => exact StCore.rfl s
  | panicked => trivial

theorem rstep_pres' {α β : Type} (s s1 : Vp9Parser) (hc : StCore s s1)
    (r : ROut α) (k : α → POut (Vp9Parser × β)) (hk : ∀ a, PresP s1 (k a)) :
    PresP s (rstep s1 r k) := by
  cases r with
  | ok a => exact presP_mono hc (hk a)
  | err e => exact hc
  | panicked => trivial

theorem rstep_pres_err' {α β : Type} (s s1 : Vp9Parser) (hc : StCore s s1)
    (r : ROut α) (k : α → POut (Vp9Parser × β)) (hk : ∀ a, PresErr s1 (k a)) :
    PresErr s (rstep s1 r k) := by
  cases r with
  | ok a => exact presErr_mono hc (hk a)
  | err e => exact hc
  | panicked => trivial

theorem pstep_pres {β γ : Type} (s : Vp9Parser) (r : POut (Vp9Parser × β))
    (k : Vp9Parser × β → POut (Vp9Parser × γ)) (hr : PresP s r)
    (hk : ∀ s1 b, StCore s s1 → PresP s1 (k (s1, b))) :
    PresP s (pstep r k) := by
  cases r with
  | ok a =>
    obtain ⟨s1, b⟩ := a
    exact presP_mono hr (hk s1 b hr)
  | err s' e => exact hr
  | panicked => trivial

theorem pstep_pres_err {β γ : Type} (s : Vp9Parser) (r : POut (Vp9Parser × β))
    (k : Vp9Parser × β → POut (Vp9Parser × γ)) (hr : PresP s r)
    (hk : ∀ s1 b, StCore s s1 → PresErr s1 (k (s1, b))) :
    PresErr s (pstep r k) := by
  cases r with
  | ok a =>
    obtain ⟨s1, b⟩ := a
    exact presErr_mono hr (hk s1 b hr)
  | err s' e => exact hr.toPresErr
  | panicked => trivial

/-! ## Inversion lemmas for successful outcomes -/

theorem rstep_ok {α β : Type} {s : Vp9Parser} {r : ROut α}
    {k : α → POut β} {b : β} (h : rstep s r k = .ok b) :
    ∃ a, r = .ok a ∧ k a = .ok b := by
  cases r <;> simp_all [rstep]

theorem pstep_ok {α β : Type} {r : POut α} {k : α → POut β} {b : β}
    (h : pstep r k = .ok b) : ∃ a, r = .ok a ∧ k a = .ok b := by
  cases r <;> simp_all [pstep]

theorem ostep_ok {α β : Type} {r : Option α} {k : α → POut β} {b : β}
    (h : ostep r k = .ok b) : ∃ a, r = some a ∧ k a = .ok b := by
  cases r <;> simp_all [ostep]

theorem rbind_ok {α β : Type} {r : ROut α} {k : α → ROut β} {b : β}
    (h : rbind r k = .ok b) : ∃ a, r = .ok a ∧ k a = .ok b := by
  cases r <;> simp_all [rbind]

/-! ## Per-helper preservation lemmas -/

theorem compute_image_size_core (s : Vp9Parser) :
    ∀ s', compute_image_size s = some s' → StCore s s' := by
  intro s' h
  unfold compute_image_size at h
  split at h
  · cases h
    exact ⟨Eq.refl _, Eq.refl _⟩
  · cases h

theorem ostep_pres_cis {β : Type} (s s0 : Vp9Parser)
    (k : Vp9Parser → POut (Vp9Parser × β)) (hc : StCore s s0)
    (hk : ∀ s1, StCore s s1 → PresP s1 (k s1)) :
    PresP s (ostep (compute_image_size s0) k) := by
  cases h : compute_image_size s0 with
  | none => trivial
  | some s1 =>
    have hcs : StCore s s1 := hc.trans (compute_image_size_core s0 s1 h)
    exact presP_mono hcs (hk s1 hcs)

theorem color_config_depth_pres (s : Vp9Parser) (br : Br) :
    PresP s (color_config_depth s br) := by
  unfold color_config_depth
  simp only [rstep]
  repeat' split
  all_goals first | exact ⟨Eq.refl _, Eq.refl _⟩ | trivial

theorem color_config_pres (s : Vp9Parser) (br : Br) :
    PresP s (color_config s br) := by
  unfold color_config
  apply pstep_pres s _ _ (color_config_depth_pres s br)
  intro s1 b hc
  dsimp only
  simp only [rstep]
  repeat' split
  all_goals first | exact ⟨Eq.refl _, Eq.refl _⟩ | trivial

theorem frame_size_pres (s : Vp9Parser) (br : Br) :
    PresP s (frame_size s br) := by
  unfold frame_size
  simp only [rstep]
  repeat' split
  all_goals first
    | trivial
    | exact ⟨Eq.refl _, Eq.refl _⟩
    | (apply ostep_pres_cis _ _ _ ⟨Eq.refl _, Eq.refl _⟩
       intro s1 hc1
       exact ⟨Eq.refl _, Eq.refl _⟩)

theorem render_size_pres (s : Vp9Parser) (br : Br) :
    PresP s (render_size s br) := by
  unfold render_size
  simp only [rstep]
  repeat' split
  all_goals first | exact ⟨Eq.refl _, Eq.refl _⟩ | trivial

theorem fswr_found_pres (s : Vp9Parser) (br : Br) (i : Nat) :
    PresP s (fswr_found s br i) := by
  unfold fswr_found
  dsimp only
  split
  · apply ostep_pres_cis _ _ _ ⟨Eq.refl _, Eq.refl _⟩
    intro s1 hc1
    exact render_size_pres s1 br
  · exact ⟨Eq.refl _, Eq.refl _⟩

theorem frame_size_with_refs_pres (s : Vp9Parser) (br : Br) :
    PresP s (frame_size_with_refs s br) := by
  unfold frame_size_with_refs
  apply rstep_pres
  rintro ⟨f0, br0⟩
  dsimp only
  split
  · exact fswr_found_pres s br0 0
  · apply rstep_pres
    rintro ⟨f1, br1⟩
    dsimp only
    split
    · exact fswr_found_pres s br1 1
    · apply rstep_pres
      rintro ⟨f2, br2⟩
      dsimp only
      split
      · exact fswr_found_pres s br2 2
      · apply pstep_pres s _ _ (frame_size_pres s br2)
        intro s1 b hc
        exact render_size_pres s1 b

theorem read_interpolation_filter_pres (s : Vp9Parser) (br : Br) :
    PresP s (read_interpolation_filter s br) := by
  unfold read_interpolation_filter
  simp only [rstep]
  repeat' split
  all_goals first | exact ⟨Eq.refl _, Eq.refl _⟩ | trivial

theorem lf_ref_delta_step_pres (i : Nat) (s : Vp9Parser) (br : Br) :
    PresP s (lf_ref_delta_step i s br) := by
  unfold lf_ref_delta_step
  simp only [rstep]
  repeat' split
  all_goals first | exact ⟨Eq.refl _, Eq.refl _⟩ | trivial

theorem lf_mode_delta_step_pres (i : Nat) (s : Vp9Parser) (br : Br) :
    PresP s (lf_mode_delta_step i s br) := by
  unfold lf_mode_delta_step
  simp only [rstep]
  repeat' split
  all_goals first | exact ⟨Eq.refl _, Eq.refl _⟩ | trivial

theorem loop_filter_params_pres (s : Vp9Parser) (br : Br) :
    PresP s (loop_filter_params s br) := by
  unfold loop_filter_params
  apply rstep_pres
  rintro ⟨lvl, br1⟩
  dsimp only
  apply rstep_pres
  rintro ⟨sharp, br2⟩
  dsimp only
  apply rstep_pres
  rintro ⟨de, br3⟩
  dsimp only
  split
  · apply rstep_pres
    rintro ⟨du, br4⟩
    dsimp only
    split
    · apply pstep_pres _ _ _ (lf_ref_delta_step_pres 0 _ _)
      intro s1 b1 hc1
      apply pstep_pres _ _ _ (lf_ref_delta_step_pres 1 _ _)
      intro s2 b2 hc2
      apply pstep_pres _ _ _ (lf_ref_delta_step_pres 2 _ _)
      intro s3 b3 hc3
      apply pstep_pres _ _ _ (lf_ref_delta_step_pres 3 _ _)
      intro s4 b4 hc4
      apply pstep_pres _ _ _ (lf_mode_delta_step_pres 0 _ _)
      intro s5 b5 hc5
      apply pstep_pres _ _ _ (lf_mode_delta_step_pres 1 _ _)
      intro s6 b6 hc6
      exact ⟨Eq.refl _, Eq.refl _⟩
    · exact ⟨Eq.refl _, Eq.refl _⟩
  · exact ⟨Eq.refl _, Eq.refl _⟩

theorem quantization_params_pres (s : Vp9Parser) (br : Br) :
    PresP s (quantization_params s br) := by
  unfold quantization_params
  simp only [rstep]
  repeat' split
  all_goals first | exact ⟨Eq.refl _, Eq.refl _⟩ | trivial

theorem seg_tree_prob_step_pres (i : Nat) (s : Vp9Parser) (br : Br) :
    PresP s (seg_tree_prob_step i s br) := by
  unfold seg_tree_prob_step
  simp only [rstep]
  repeat' split
  all_goals first | exact ⟨Eq.refl _, Eq.refl _⟩ | trivial

theorem seg_pred_prob_step_pres (i : Nat) (s : Vp9Parser) (br : Br) :
    PresP s (seg_pred_prob_step i s br) := by
  unfold seg_pred_prob_step
  simp only [rstep]
  repeat' split
  all_goals first | exact ⟨Eq.refl _, Eq.refl _⟩ | trivial

theorem seg_feature_step_pres (i : Nat) (s : Vp9Parser) (br : Br) :
    PresP s (seg_feature_step i s br) := by
  unfold seg_feature_step
  apply rstep_pres
  rintro ⟨aq, br1⟩
  dsimp only
  apply pstep_pres s
  · split
    · simp only [rstep]
      repeat' split
      all_goals first | exact ⟨Eq.refl _, Eq.refl _⟩ | trivial
    · exact ⟨Eq.refl _, Eq.refl _⟩
  · intro s1 b1 hc1
    apply rstep_pres
    rintro ⟨al, br2⟩
    dsimp only
    apply pstep_pres s1
    · split
      · simp only [rstep]
        repeat' split
        all_goals first | exact ⟨Eq.refl _, Eq.refl _⟩ | trivial
      · exact ⟨Eq.refl _, Eq.refl _⟩
    · intro s2 b2 hc2
      apply rstep_pres
      rintro ⟨arf, br3⟩
      dsimp only
      apply pstep_pres s2
      · split
        · simp only [rstep]
          repeat' split
          all_goals first | exact ⟨Eq.refl _, Eq.refl _⟩ | trivial
        · exact ⟨Eq.refl _, Eq.refl _⟩
      · intro s3 b3 hc3
        apply rstep_pres
        rintro ⟨askip, br4⟩
        dsimp only
        exact ⟨Eq.refl _, Eq.refl _⟩

theorem seg_update_map_part_pres (s : Vp9Parser) (br : Br) :
    PresP s (seg_update_map_part s br) := by
  unfold seg_update_map_part
  apply pstep_pres _ _ _ (seg_tree_prob_step_pres 0 _ _)
  intro s1 b1 hc1
  apply pstep_pres _ _ _ (seg_tree_prob_step_pres 1 _ _)
  intro s2 b2 hc2
  apply pstep_pres _ _ _ (seg_tree_prob_step_pres 2 _ _)
  intro s3 b3 hc3
  apply pstep_pres _ _ _ (seg_tree_prob_step_pres 3 _ _)
  intro s4 b4 hc4
  apply pstep_pres _ _ _ (seg_tree_prob_step_pres 4 _ _)
  intro s5 b5 hc5
  apply pstep_pres _ _ _ (seg_tree_prob_step_pres 5 _ _)
  intro s6 b6 hc6
  apply pstep_pres _ _ _ (seg_tree_prob_step_pres 6 _ _)
  intro s7 b7 hc7
  apply rstep_pres
  rintro ⟨tu, br8⟩
  dsimp only
  apply pstep_pres _ _ _ (seg_pred_prob_step_pres 0 _ _)
  intro s8 b8 hc8
  apply pstep_pres _ _ _ (seg_pred_prob_step_pres 1 _ _)
  intro s9 b9 hc9
  apply pstep_pres _ _ _ (seg_pred_prob_step_pres 2 _ _)
  intro s10 b10 hc10
  exact ⟨Eq.refl _, Eq.refl _⟩

theorem seg_update_data_part_pres (s : Vp9Parser) (br : Br) :
    PresP s (seg_update_data_part s br) := by
  unfold seg_update_data_part
  apply pstep_pres _ _ _ (seg_feature_step_pres 0 _ _)
  intro s1 b1 hc1
  apply pstep_pres _ _ _ (seg_feature_step_pres 1 _ _)
  intro s2 b2 hc2
  apply pstep_pres _ _ _ (seg_feature_step_pres 2 _ _)
  intro s3 b3 hc3
  apply pstep_pres _ _ _ (seg_feature_step_pres 3 _ _)
  intro s4 b4 hc4
  apply pstep_pres _ _ _ (seg_feature_step_pres 4 _ _)
  intro s5 b5 hc5
  apply pstep_pres _ _ _ (seg_feature_step_pres 5 _ _)
  intro s6 b6 hc6
  apply pstep_pres _ _ _ (seg_feature_step_pres 6 _ _)
  intro s7 b7 hc7
  apply pstep_pres _ _ _ (seg_feature_step_pres 7 _ _)
  intro s8 b8 hc8
  exact ⟨Eq.refl _, Eq.refl _⟩

theorem segmentation_params_pres (s : Vp9Parser) (br : Br) :
    PresP s (segmentation_params s br) := by
  unfold segmentation_params
  apply rstep_pres
  rintro ⟨enabled, br1⟩
  dsimp only
  split
  · apply rstep_pres
    rintro ⟨um, br2⟩
    dsimp only
    apply pstep_pres s
    · split
      · exact seg_update_map_part_pres _ _
      · exact ⟨Eq.refl _, Eq.refl _⟩
    · intro s1 b1 hc1
      apply rstep_pres
      rintro ⟨ud, br3⟩
      dsimp only
      split
      · apply rstep_pres
        rintro ⟨au, br4⟩
        dsimp only
        exact seg_update_data_part_pres _ _
      · exact ⟨Eq.refl _, Eq.refl _⟩
  · exact ⟨Eq.refl _, Eq.refl _⟩

theorem tile_cols_loop_go_pres (fuel : Nat) :
    ∀ (s : Vp9Parser) (m : Nat) (br : Br),
      PresP s (tile_cols_loop_go fuel s m br) := by
  induction fuel with
  | zero =>
    intro s m br
    unfold tile_cols_loop_go
    split
    · exact ⟨Eq.refl _, Eq.refl _⟩
    · exact ⟨Eq.refl _, Eq.refl _⟩
  | succ fuel ih =>
    intro s m br
    unfold tile_cols_loop_go
    split
    · split
      · split
        · split
          · exact presP_mono ⟨Eq.refl _, Eq.refl _⟩ (ih _ _ _)
          · trivial
        · exact ⟨Eq.refl _, Eq.refl _⟩
      · exact ⟨Eq.refl _, Eq.refl _⟩
    · exact ⟨Eq.refl _, Eq.refl _⟩

theorem tile_cols_loop_pres (s : Vp9Parser) (m : Nat) (br : Br) :
    PresP s (tile_cols_loop s m br) :=
  tile_cols_loop_go_pres _ s m br

theorem tile_info_pres (s : Vp9Parser) (br : Br) :
    PresP s (tile_info s br) := by
  unfold tile_info
  apply rstep_pres
  intro mn
  apply rstep_pres
  intro mx
  dsimp only
  apply pstep_pres s _ _
    (presP_mono ⟨Eq.refl _, Eq.refl _⟩
      (tile_cols_loop_pres { s with tile_rows_log2 := mn } mx br))
  intro s1 b1 hc1
  apply rstep_pres
  rintro ⟨r, br2⟩
  dsimp only
  split
  · apply rstep_pres
    rintro ⟨incr, br3⟩
    exact ⟨Eq.refl _, Eq.refl _⟩
  · exact ⟨Eq.refl _, Eq.refl _⟩

theorem intra_only_read_pres (s : Vp9Parser) (br : Br) :
    PresP s (intra_only_read s br) := by
  unfold intra_only_read
  simp only [rstep]
  repeat' split
  all_goals first | exact ⟨Eq.refl _, Eq.refl _⟩ | trivial

theorem reset_frame_context_read_pres (s : Vp9Parser) (br : Br) :
    PresP s (reset_frame_context_read s br) := by
  unfold reset_frame_context_read
  simp only [rstep]
  repeat' split
  all_goals first | exact ⟨Eq.refl _, Eq.refl _⟩ | trivial

theorem ref_frames_read_pres (i : Nat) (s : Vp9Parser) (br : Br) :
    PresP s (ref_frames_read i s br) := by
  unfold ref_frames_read
  simp only [rstep]
  repeat' split
  all_goals first | exact ⟨Eq.refl _, Eq.refl _⟩ | trivial

theorem refresh_context_read_pres (s : Vp9Parser) (br : Br) :
    PresP s (refresh_context_read s br) := by
  unfold refresh_context_read
  simp only [rstep]
  repeat' split
  all_goals first | exact ⟨Eq.refl _, Eq.refl _⟩ | trivial

theorem frame_kind_pres (s : Vp9Parser) (br : Br) :
    PresP s (frame_kind s br) := by
  unfold frame_kind
  dsimp only
  apply rstep_pres'
  · exact ⟨Eq.refl _, Eq.refl _⟩
  rintro ⟨ft, br1⟩
  dsimp only
  apply rstep_pres'
  · exact ⟨Eq.refl _, Eq.refl _⟩
  rintro ⟨sf, br2⟩
  dsimp only
  apply rstep_pres'
  · exact ⟨Eq.refl _, Eq.refl _⟩
  rintro ⟨erm, br3⟩
  dsimp only
  split
  · apply rstep_pres
    intro br4
    apply pstep_pres _ _ _ (color_config_pres _ _)
    intro s1 b1 hc1
    apply pstep_pres _ _ _ (frame_size_pres s1 b1)
    intro s2 b2 hc2
    apply pstep_pres _ _ _ (render_size_pres s2 b2)
    intro s3 b3 hc3
    exact ⟨Eq.refl _, Eq.refl _⟩
  · apply pstep_pres _ _ _ (intra_only_read_pres _ _)
    intro s1 b1 hc1
    apply pstep_pres _ _ _ (reset_frame_context_read_pres s1 b1)
    intro s2 b2 hc2
    split
    · apply rstep_pres
      intro br4
      apply pstep_pres s2 _ _
      · split
        · exact color_config_pres s2 br4
        · exact ⟨Eq.refl _, Eq.refl _⟩
      · intro s3 b3 hc3
        apply rstep_pres
        rintro ⟨rff, br5⟩
        dsimp only
        apply pstep_pres _ _ _
          (presP_mono ⟨Eq.refl _, Eq.refl _⟩ (frame_size_pres _ br5))
        intro s5 b5 hc5
        exact render_size_pres s5 b5
    · apply rstep_pres
      rintro ⟨rff, br4⟩
      dsimp only
      apply pstep_pres _ _ _
        (presP_mono ⟨Eq.refl _, Eq.refl _⟩ (ref_frames_read_pres 0 _ br4))
      intro s4 b4 hc4
      apply pstep_pres _ _ _ (ref_frames_read_pres 1 s4 b4)
      intro s5 b5 hc5
      apply pstep_pres _ _ _ (ref_frames_read_pres 2 s5 b5)
      intro s6 b6 hc6
      apply pstep_pres _ _ _ (frame_size_with_refs_pres s6 b6)
      intro s7 b7 hc7
      apply rstep_pres
      rintro ⟨ahpm, br8⟩
      dsimp only
      exact presP_mono ⟨Eq.refl _, Eq.refl _⟩
        (read_interpolation_filter_pres _ br8)

theorem fci_force_core (s : Vp9Parser) : StCore s (fci_force s) := by
  unfold fci_force
  split
  · exact ⟨Eq.refl _, Eq.refl _⟩
  · exact ⟨Eq.refl _, Eq.refl _⟩

theorem lf_delta_reset_core (s : Vp9Parser) : StCore s (lf_delta_reset s) := by
  unfold lf_delta_reset
  split
  · exact ⟨Eq.refl _, Eq.refl _⟩
  · exact ⟨Eq.refl _, Eq.refl _⟩

theorem frame_tail_pres_err (s : Vp9Parser) (br : Br) (data : List Nat) :
    PresErr s (frame_tail s br data) := by
  unfold frame_tail
  apply pstep_pres_err _ _ _ (refresh_context_read_pres s br)
  intro s1 b1 hc1
  apply rstep_pres_err
  rintro ⟨fci, br2⟩
  dsimp only
  refine presErr_mono (StCore.trans (StCore.trans (⟨Eq.refl _, Eq.refl _⟩ :
      StCore s1 { s1 with frame_context_idx := fci }) (fci_force_core _))
      (lf_delta_reset_core _)) ?_
  generalize lf_delta_reset (fci_force { s1 with frame_context_idx := fci }) = s2
  apply pstep_pres_err _ _ _ (loop_filter_params_pres s2 br2)
  intro s3 b3 hc3
  apply pstep_pres_err _ _ _ (quantization_params_pres s3 b3)
  intro s4 b4 hc4
  apply pstep_pres_err _ _ _ (segmentation_params_pres s4 b4)
  intro s5 b5 hc5
  apply pstep_pres_err _ _ _ (tile_info_pres s5 b5)
  intro s6 b6 hc6
  apply rstep_pres_err
  rintro ⟨chs, br7⟩
  dsimp only
  apply rstep_pres_err
  intro br8
  dsimp only
  split
  · trivial
  · trivial

/-! ## Error-path inversion lemmas -/

theorem rstep_err {α β : Type} {s : Vp9Parser} {r : ROut α} {k : α → POut β}
    {s' : Vp9Parser} {e : Vp9ParserError} (h : rstep s r k = .err s' e) :
    s' = s ∨ ∃ a, r = .ok a ∧ k a = .err s' e := by
  cases r <;> simp_all [rstep]

theorem pstep_err {α β : Type} {r : POut α} {k : α → POut β}
    {s' : Vp9Parser} {e : Vp9ParserError} (h : pstep r k = .err s' e) :
    r = .err s' e ∨ ∃ a, r = .ok a ∧ k a = .err s' e := by
  cases r <;> simp_all [pstep]

/-- On any error outcome of `parse_vp9_frame`, the reference-slot sizes
are unchanged from the start of the frame: `refresh_ref_frames`, the
only writer of `ref_frame_sizes`, runs after the last fallible step of a
successful parse. -/
theorem parse_vp9_frame_err_rfs (s : Vp9Parser) (data : List Nat)
    (s' : Vp9Parser) (e : Vp9ParserError)
    (h : parse_vp9_frame s data = .err s' e) :
    s'.ref_frame_sizes = s.ref_frame_sizes := by
  unfold parse_vp9_frame at h
  dsimp only at h
  rcases rstep_err h with hs | ⟨⟨fm, br1⟩, _, h⟩
  · exact hs ▸ rfl
  dsimp only at h
  split at h
  · cases h
    rfl
  · rcases rstep_err h with hs | ⟨⟨pl, br2⟩, _, h⟩
    · exact hs ▸ rfl
    dsimp only at h
    rcases rstep_err h with hs | ⟨⟨ph, br3⟩, _, h⟩
    · exact hs ▸ rfl
    dsimp only at h
    rcases pstep_err h with hctx | ⟨⟨sP, brP⟩, hok, h⟩
    · split at hctx
      · rcases rstep_err hctx with hs | ⟨⟨rz, br4⟩, _, hbad⟩
        · exact hs ▸ rfl
        · simp at hbad
      · simp at hctx
    · have hsp : sP.ref_frame_sizes = s.ref_frame_sizes := by
        split at hok
        · obtain ⟨⟨rz, br4⟩, _, hok2⟩ := rstep_ok hok
          simp only [POut.ok.injEq, Prod.mk.injEq] at hok2
          rw [← hok2.1]
        · simp only [POut.ok.injEq, Prod.mk.injEq] at hok
          rw [← hok.1]
      dsimp only at h
      rcases rstep_err h with hs | ⟨⟨sef, br4⟩, _, h⟩
      · exact hs ▸ hsp
      dsimp only at h
      split at h
      · rcases rstep_err h with hs | ⟨⟨idx, brI⟩, _, hbad⟩
        · exact hs ▸ hsp
        · simp at hbad
      · rcases pstep_err h with hkind | ⟨⟨s2, b2⟩, hok2, h⟩
        · have := frame_kind_pres
            { sP with show_existing_frame := sef, frame_to_show_map_idx := none }
            br4
          rw [hkind] at this
          exact this.1.trans hsp
        · have hc2 : StCore
              { sP with show_existing_frame := sef, frame_to_show_map_idx := none }
              s2 := by
            have := frame_kind_pres
              { sP with show_existing_frame := sef, frame_to_show_map_idx := none }
              br4
            rwa [hok2] at this
          have := frame_tail_pres_err s2 b2 data
          rw [h] at this
          exact (hc2.trans this).1.trans hsp

/-! ## Successful-parse inversion -/

/-- What a successful `frame_tail` produces: the descriptor snapshots
the pre-refresh state (which agrees with the entry state on the core
fields), the returned state is `refresh_ref_frames` of that snapshot,
the descriptor owns `data`, and the three sizes sum to `|data|`. -/
theorem frame_tail_frame_core (s : Vp9Parser) (br : Br) (data : List Nat)
    (s' : Vp9Parser) (f : Frame) (h : frame_tail s br data = .ok (s', f)) :
    StCore s f.st ∧ s' = refresh_ref_frames f.st ∧ f.data = data ∧
      f.uncompressed_header_size + f.compressed_header_size + f.tile_size =
        data.length := by
  unfold frame_tail at h
  obtain ⟨⟨s1, b1⟩, h1, h⟩ := pstep_ok h
  have hc1 : StCore s s1 := by
    have := refresh_context_read_pres s br
    rwa [h1] at this
  dsimp only at h
  obtain ⟨⟨fci, b2⟩, _, h⟩ := rstep_ok h
  dsimp only at h
  obtain ⟨⟨s2, b3⟩, h2, h⟩ := pstep_ok h
  have hc2 : StCore s1 s2 := by
    have hbase : StCore s1
        (lf_delta_reset (fci_force { s1 with frame_context_idx := fci })) :=
      (StCore.trans (⟨Eq.refl _, Eq.refl _⟩ :
        StCore s1 { s1 with frame_context_idx := fci })
        (fci_force_core _)).trans (lf_delta_reset_core _)
    have := loop_filter_params_pres
      (lf_delta_reset (fci_force { s1 with frame_context_idx := fci })) b2
    rw [h2] at this
    exact hbase.trans this
  dsimp only at h
  obtain ⟨⟨s3, b4⟩, h3, h⟩ := pstep_ok h
  have hc3 : StCore s2 s3 := by
    have := quantization_params_pres s2 b3
    rwa [h3] at this
  dsimp only at h
  obtain ⟨⟨s4, b5⟩, h4, h⟩ := pstep_ok h
  have hc4 : StCore s3 s4 := by
    have := segmentation_params_pres s3 b4
    rwa [h4] at this
  dsimp only at h
  obtain ⟨⟨s5, b6⟩, h5, h⟩ := pstep_ok h
  have hc5 : StCore s4 s5 := by
    have := tile_info_pres s4 b5
    rwa [h5] at this
  dsimp only at h
  obtain ⟨⟨chs, b7⟩, _, h⟩ := rstep_ok h
  dsimp only at h
  obtain ⟨b8, _, h⟩ := rstep_ok h
  split at h
  · next hle =>
    simp only [POut.ok.injEq, Prod.mk.injEq] at h
    obtain ⟨hs', hf⟩ := h
    subst hs'
    subst hf
    refine ⟨(((hc1.trans hc2).trans hc3).trans hc4).trans hc5, rfl, rfl, ?_⟩
    simpa [Frame.new] using Nat.add_sub_cancel' hle
  · simp at h

/-- Case analysis of a successful `parse_vp9_frame`: either the
show-existing-frame early exit fired (zero sizes, empty data, state
advanced only on the fields the early exit writes), or the full header
was parsed (sizes sum to the payload length, the returned state is
`refresh_ref_frames` of the descriptor snapshot, and the reference-slot
sizes the snapshot holds are those of the entry state). -/
theorem parse_vp9_frame_ok_inv (s : Vp9Parser) (data : List Nat)
    (s' : Vp9Parser) (f : Frame) (h : parse_vp9_frame s data = .ok (s', f)) :
    f.uncompressed_header_size + f.compressed_header_size + f.tile_size =
        f.data.length ∧
      (f.st.show_existing_frame = true →
        s' = f.st ∧ f.uncompressed_header_size = 0 ∧
          f.compressed_header_size = 0 ∧ f.data = [] ∧
          s'.last_frame_type = s.last_frame_type ∧
          s'.ref_frame_sizes = s.ref_frame_sizes ∧
          s'.loop_filter_ref_deltas = s.loop_filter_ref_deltas ∧
          s'.loop_filter_mode_deltas = s.loop_filter_mode_deltas) ∧
      (f.st.show_existing_frame = false →
        s' = refresh_ref_frames f.st ∧
          f.st.ref_frame_sizes = s.ref_frame_sizes ∧ f.data = data) := by
  unfold parse_vp9_frame at h
  dsimp only at h
  obtain ⟨⟨fm, br1⟩, _, h⟩ := rstep_ok h
  dsimp only at h
  split at h
  · simp at h
  · obtain ⟨⟨pl, br2⟩, _, h⟩ := rstep_ok h
    dsimp only at h
    obtain ⟨⟨ph, br3⟩, _, h⟩ := rstep_ok h
    dsimp only at h
    obtain ⟨⟨sP, brP⟩, hok, h⟩ := pstep_ok h
    have hsp : sP =
        { s with
          profile := Profile.from_u8 ((ph <<< 1) + pl) } := by
      split at hok
      · obtain ⟨⟨rz, br4⟩, _, hok2⟩ := rstep_ok hok
        simp only [POut.ok.injEq, Prod.mk.injEq] at hok2
        exact hok2.1.symm
      · simp only [POut.ok.injEq, Prod.mk.injEq] at hok
        exact hok.1.symm
    subst hsp
    dsimp only at h
    obtain ⟨⟨sef, br4⟩, _, h⟩ := rstep_ok h
    dsimp only at h
    split at h
    · next hsef =>
      obtain ⟨⟨idx, brI⟩, _, h⟩ := rstep_ok h
      dsimp only at h
      simp only [POut.ok.injEq, Prod.mk.injEq] at h
      obtain ⟨hs', hf⟩ := h
      subst hs'
      subst hf
      refine ⟨rfl, fun _ => ⟨rfl, rfl, rfl, rfl, rfl, rfl, rfl, rfl⟩,
        fun hff => ?_⟩
      simp [Frame.new, hsef] at hff
    · next hsef =>
      obtain ⟨⟨s2, b2⟩, hok2, h⟩ := pstep_ok h
      obtain ⟨hcoreA, hrefresh, hdata, hsum⟩ :=
        frame_tail_frame_core _ b2 data s' f h
      have hkc : StCore
          { s with
            profile := Profile.from_u8 ((ph <<< 1) + pl),
            show_existing_frame := sef,
            frame_to_show_map_idx := none } s2 := by
        have := frame_kind_pres
          { s with
            profile := Profile.from_u8 ((ph <<< 1) + pl),
            show_existing_frame := sef,
            frame_to_show_map_idx := none } br4
        rwa [hok2] at this
      have hshow : f.st.show_existing_frame = false := by
        rw [hcoreA.2, hkc.2]
        simpa using hsef
      refine ⟨?_, fun ht => absurd ht (by rw [hshow]; simp),
        fun _ => ⟨hrefresh, ?_, hdata⟩⟩
      · rw [hdata, hsum]
      · rw [hcoreA.1, hkc.1]

theorem parse_vp9_frame_sizes (s : Vp9Parser) (data : List Nat)
    (s' : Vp9Parser) (f : Frame) (h : parse_vp9_frame s data = .ok (s', f)) :
    SizesOk f :=
  (parse_vp9_frame_ok_inv s data s' f h).1

theorem superframe_loop_go_sizes (fuel : Nat) :
    ∀ (s : Vp9Parser) (entry : List Nat) (bs : Nat) (packet : List Nat)
      (i n : Nat) (acc : List Frame),
      (∀ f ∈ acc, SizesOk f) →
      ∀ (s' : Vp9Parser) (frames : List Frame),
        superframe_loop_go fuel s entry bs packet i n acc = .ok (s', frames) →
        ∀ f ∈ frames, SizesOk f := by
  induction fuel with
  | zero =>
    intro s entry bs packet i n acc hacc s' frames h
    unfold superframe_loop_go at h
    simp only [POut.ok.injEq, Prod.mk.injEq] at h
    rw [← h.2]
    exact hacc
  | succ fuel ih =>
    intro s entry bs packet i n acc hacc s' frames h
    unfold superframe_loop_go at h
    obtain ⟨fs, _, h⟩ := rstep_ok h
    split at h
    · obtain ⟨⟨s2, fr⟩, hp, h⟩ := pstep_ok h
      refine ih s2 entry bs (packet.drop fs) (i + 1) n (acc ++ [fr])
        ?_ s' frames h
      intro f hf
      rcases List.mem_append.mp hf with hf | hf
      · exact hacc f hf
      · rw [List.mem_singleton.mp hf]
        exact parse_vp9_frame_sizes _ _ _ _ hp
    · simp at h

theorem parse_vp9_packet_frames_sizes (s : Vp9Parser) (packet : List Nat)
    (s' : Vp9Parser) (frames : List Frame)
    (h : parse_vp9_packet s packet = .ok (s', frames)) :
    ∀ f ∈ frames, SizesOk f := by
  unfold parse_vp9_packet at h
  split at h
  · simp only [POut.ok.injEq, Prod.mk.injEq] at h
    rw [← h.2]
    intro f hf
    cases hf
  · dsimp only at h
    split at h
    · split at h
      · split at h
        · split at h
          · obtain ⟨fs, _, h⟩ := rstep_ok h
            obtain ⟨⟨s2, fr⟩, hp, h⟩ := pstep_ok h
            dsimp only at h
            simp only [POut.ok.injEq, Prod.mk.injEq] at h
            rw [← h.2]
            intro f hf
            rw [List.mem_singleton.mp hf]
            exact parse_vp9_frame_sizes _ _ _ _ hp
          · obtain ⟨fs, _, h⟩ := rstep_ok h
            split at h
            · obtain ⟨⟨s2, fr1⟩, hp1, h⟩ := pstep_ok h
              dsimp only at h
              obtain ⟨fs2, _, h⟩ := rstep_ok h
              obtain ⟨⟨s3, fr2⟩, hp2, h⟩ := pstep_ok h
              dsimp only at h
              simp only [POut.ok.injEq, Prod.mk.injEq] at h
              rw [← h.2]
              intro f hf
              rcases List.mem_cons.mp hf with hf | hf
              · rw [hf]
                exact parse_vp9_frame_sizes _ _ _ _ hp1
              · rw [List.mem_singleton.mp hf]
                exact parse_vp9_frame_sizes _ _ _ _ hp2
            · simp at h
          · exact superframe_loop_go_sizes _ _ _ _ _ _ _ _
              (by intro f hf; cases hf) s' frames h
        · unfold parse_normal_frame at h
          obtain ⟨⟨s2, fr⟩, hp, h⟩ := pstep_ok h
          dsimp only at h
          simp only [POut.ok.injEq, Prod.mk.injEq] at h
          rw [← h.2]
          intro f hf
          rw [List.mem_singleton.mp hf]
          exact parse_vp9_frame_sizes _ _ _ _ hp
      · simp at h
    · unfold parse_normal_frame at h
      obtain ⟨⟨s2, fr⟩, hp, h⟩ := pstep_ok h
      dsimp only at h
      simp only [POut.ok.injEq, Prod.mk.injEq] at h
      rw [← h.2]
      intro f hf
      rw [List.mem_singleton.mp hf]
      exact parse_vp9_frame_sizes _ _ _ _ hp

/-! ## The claims -/

/-- C1: for every frame descriptor successfully returned by
`parse_vp9_packet`, `uncompressed_header_size + compressed_header_size +
tile_size` equals the length of the packet bytes owned by that
descriptor (`tile_size` is computed by a checked subtraction, so a
successful parse guarantees the exact equation). -/
theorem C1_frame_sizes_sum (s : Vp9Parser) (packet : List Nat)
    (s' : Vp9Parser) (frames : List Frame)
    (h : parse_vp9_packet s packet = .ok (s', frames)) :
    ∀ f ∈ frames,
      f.uncompressed_header_size + f.compressed_header_size + f.tile_size =
        f.data.length :=
  parse_vp9_packet_frames_sizes s packet s' frames h

theorem C1_frame_sizes_sum_witness :
    (parse_vp9_packet Vp9Parser.default keyframePacket).isOk = true ∧
      ((outFrames (parse_vp9_packet Vp9Parser.default
            keyframePacket)).getD 0 dFrame).uncompressed_header_size +
          ((outFrames (parse_vp9_packet Vp9Parser.default
              keyframePacket)).getD 0 dFrame).compressed_header_size +
          ((outFrames (parse_vp9_packet Vp9Parser.default
              keyframePacket)).getD 0 dFrame).tile_size =
        ((outFrames (parse_vp9_packet Vp9Parser.default
            keyframePacket)).getD 0 dFrame).data.length := by
  refine ⟨rfl, ?_⟩
  have hmem : (outFrames (parse_vp9_packet Vp9Parser.default
      keyframePacket)).getD 0 dFrame ∈
      outFrames (parse_vp9_packet Vp9Parser.default keyframePacket) := by
    have he : outFrames (parse_vp9_packet Vp9Parser.default keyframePacket) =
        [(outFrames (parse_vp9_packet Vp9Parser.default
            keyframePacket)).getD 0 dFrame] := rfl
    rw [he]
    exact List.mem_singleton.mpr rfl
  exact C1_frame_sizes_sum Vp9Parser.default keyframePacket
    (outState (parse_vp9_packet Vp9Parser.default keyframePacket))
    (outFrames (parse_vp9_packet Vp9Parser.default keyframePacket)) rfl
    ((outFrames (parse_vp9_packet Vp9Parser.default
      keyframePacket)).getD 0 dFrame) hmem

/-- C2: a packet of length `L ≥ 6` whose last byte is `0xC9` and whose
byte at `L - 6` equals it is split as a two-frame superframe
(`bytes_per_framesize = 2`, `frame_count = 2`): on success the two
returned descriptors are, in order, the parse of the first `a` packet
bytes and the parse of the following `b` bytes, where `a` and `b` are
the 16-bit little-endian integers at offsets `L-5` and `L-3`. -/
theorem C2_two_frame_superframe (s s' : Vp9Parser) (p : List Nat)
    (frames : List Frame) (hL : 6 ≤ p.length)
    (hlast : p.getD (p.length - 1) 0 = 0xC9)
    (hfirst : p.getD (p.length - 6) 0 = 0xC9)
    (h : parse_vp9_packet s p = .ok (s', frames)) :
    ∃ s1 f1 f2,
      parse_vp9_frame s
          (p.take (p.getD (p.length - 5) 0 + 256 * p.getD (p.length - 4) 0)) =
        .ok (s1, f1) ∧
      parse_vp9_frame s1
          ((p.drop (p.getD (p.length - 5) 0 +
              256 * p.getD (p.length - 4) 0)).take
            (p.getD (p.length - 3) 0 + 256 * p.getD (p.length - 2) 0)) =
        .ok (s', f2) ∧
      frames = [f1, f2] := by
  unfold parse_vp9_packet at h
  rw [if_neg (by omega : ¬ p.length = 0)] at h
  dsimp only at h
  rw [hlast] at h
  have e1 : (201 : Nat) &&& 224 = 192 := by decide
  have e2 : (201 : Nat) &&& 7 = 1 := by decide
  have e3 : (201 : Nat) &&& 24 = 8 := by decide
  have e4 : (8 : Nat) >>> 3 = 1 := by decide
  rw [e1, e2, e3] at h
  rw [e4] at h
  norm_num at h
  simp only [List.getD_eq_getElem?_getD] at hfirst
  rw [if_pos hL, if_pos hfirst] at h
  have h65 : p.length - 6 + 1 = p.length - 5 := by omega
  rw [h65] at h
  have hel : (List.take 4 (List.drop (p.length - 5) p)).length = 4 := by
    simp [List.length_take, List.length_drop]
    omega
  simp only [read_frame_size, hel] at h
  norm_num at h
  have i1 : p.length - 5 + 1 = p.length - 4 := by omega
  have i2 : p.length - 5 + 2 = p.length - 3 := by omega
  have i3 : p.length - 5 + 3 = p.length - 2 := by omega
  rw [i1, i2, i3] at h
  simp only [rstep] at h
  split at h
  · next ha =>
    obtain ⟨⟨s1, f1⟩, hp1, h⟩ := pstep_ok h
    dsimp only at h
    obtain ⟨⟨s2, f2⟩, hp2, h⟩ := pstep_ok h
    dsimp only at h
    simp only [POut.ok.injEq, Prod.mk.injEq] at h
    obtain ⟨hs, hf⟩ := h
    refine ⟨s1, f1, f2, ?_, ?_, hf.symm⟩
    · simpa only [List.getD_eq_getElem?_getD] using hp1
    · rw [hs] at hp2
      simpa only [List.getD_eq_getElem?_getD] using hp2
  · exact POut.noConfusion h

theorem C2_two_frame_superframe_witness :
    ∃ s1 f1 f2,
      parse_vp9_frame Vp9Parser.default
          (superPacket.take (superPacket.getD (superPacket.length - 5) 0 +
            256 * superPacket.getD (superPacket.length - 4) 0)) =
        .ok (s1, f1) ∧
      parse_vp9_frame s1
          ((superPacket.drop (superPacket.getD (superPacket.length - 5) 0 +
              256 * superPacket.getD (superPacket.length - 4) 0)).take
            (superPacket.getD (superPacket.length - 3) 0 +
              256 * superPacket.getD (superPacket.length - 2) 0)) =
        .ok (outState (parse_vp9_packet Vp9Parser.default superPacket), f2) ∧
      outFrames (parse_vp9_packet Vp9Parser.default superPacket) = [f1, f2] :=
  C2_two_frame_superframe Vp9Parser.default
    (outState (parse_vp9_packet Vp9Parser.default superPacket)) superPacket
    (outFrames (parse_vp9_packet Vp9Parser.default superPacket))
    (by decide) rfl rfl rfl

/-- C3: a successfully parsed frame whose show_existing_frame bit is set
leaves the cross-frame parser state — `last_frame_type`, the eight
`ref_frame_sizes` pairs, `loop_filter_ref_deltas` and
`loop_filter_mode_deltas` — identical to its value before the frame, and
its descriptor has zero uncompressed- and compressed-header sizes. -/
theorem C3_show_existing_preserves_state (s : Vp9Parser) (data : List Nat)
    (s' : Vp9Parser) (f : Frame)
    (h : parse_vp9_frame s data = .ok (s', f))
    (hsef : f.show_existing_frame = true) :
    s'.last_frame_type = s.last_frame_type ∧
      s'.ref_frame_sizes = s.ref_frame_sizes ∧
      s'.loop_filter_ref_deltas = s.loop_filter_ref_deltas ∧
      s'.loop_filter_mode_deltas = s.loop_filter_mode_deltas ∧
      f.uncompressed_header_size = 0 ∧ f.compressed_header_size = 0 := by
  obtain ⟨-, hearly, -⟩ := parse_vp9_frame_ok_inv s data s' f h
  obtain ⟨-, h1, h2, -, h3, h4, h5, h6⟩ := hearly hsef
  exact ⟨h3, h4, h5, h6, h1, h2⟩

theorem C3_show_existing_preserves_state_witness :
    (outState (parse_vp9_frame Vp9Parser.default sefPacket)).last_frame_type =
        Vp9Parser.default.last_frame_type ∧
      (outState (parse_vp9_frame Vp9Parser.default
          sefPacket)).ref_frame_sizes = Vp9Parser.default.ref_frame_sizes ∧
      (outState (parse_vp9_frame Vp9Parser.default
          sefPacket)).loop_filter_ref_deltas =
        Vp9Parser.default.loop_filter_ref_deltas ∧
      (outState (parse_vp9_frame Vp9Parser.default
          sefPacket)).loop_filter_mode_deltas =
        Vp9Parser.default.loop_filter_mode_deltas ∧
      (outFrame (parse_vp9_frame Vp9Parser.default
          sefPacket)).uncompressed_header_size = 0 ∧
      (outFrame (parse_vp9_frame Vp9Parser.default
          sefPacket)).compressed_header_size = 0 :=
  C3_show_existing_preserves_state Vp9Parser.default sefPacket
    (outState (parse_vp9_frame Vp9Parser.default sefPacket))
    (outFrame (parse_vp9_frame Vp9Parser.default sefPacket)) rfl rfl

/-- C4: after a successful non-show-existing frame, every reference slot
whose bit is set in the frame's `refresh_frame_flags` holds the frame's
`(width, height)`, and every slot whose bit is clear is unchanged from
the state before the frame. -/
theorem C4_refresh_ref_frame_slots (s : Vp9Parser) (data : List Nat)
    (s' : Vp9Parser) (f : Frame)
    (h : parse_vp9_frame s data = .ok (s', f))
    (hsef : f.show_existing_frame = false) :
    ∀ i : Fin 8,
      s'.ref_frame_sizes i =
        if (f.refresh_frame_flags >>> i.val) % 2 = 1 then (f.width, f.height)
        else s.ref_frame_sizes i := by
  obtain ⟨-, -, hlate⟩ := parse_vp9_frame_ok_inv s data s' f h
  obtain ⟨hs', hrfs, -⟩ := hlate hsef
  intro i
  rw [hs']
  show (if (f.st.refresh_frame_flags >>> i.val) % 2 = 1 then
          (f.st.width, f.st.height)
        else f.st.ref_frame_sizes i) = _
  rw [hrfs]
  rfl

theorem C4_refresh_ref_frame_slots_witness :
    (outState (parse_vp9_frame Vp9Parser.default
        keyframePacket)).ref_frame_sizes 0 = (64, 64) := by
  have h := C4_refresh_ref_frame_slots Vp9Parser.default keyframePacket
    (outState (parse_vp9_frame Vp9Parser.default keyframePacket))
    (outFrame (parse_vp9_frame Vp9Parser.default keyframePacket)) rfl rfl 0
  rw [h]
  rfl

/-- C5 counterexample: `parse_vp9_packet` on the one-byte packet
`[0x82]` from the default state returns an error (reader exhaustion in
the sync code), yet the parser state is NOT unchanged: `frame_type` has
been mutated from `NonKeyFrame` to `KeyFrame` and `show_frame` from
`false` to `true` by the reads made before the failure. -/
theorem C5_error_state_mutated_counterexample :
    (parse_vp9_packet Vp9Parser.default errPacket).isErr = true ∧
      (outState (parse_vp9_packet Vp9Parser.default errPacket)).frame_type =
        FrameType.KeyFrame ∧
      Vp9Parser.default.frame_type = FrameType.NonKeyFrame ∧
      (outState (parse_vp9_packet Vp9Parser.default errPacket)).show_frame =
        true ∧
      Vp9Parser.default.show_frame = false :=
  ⟨rfl, rfl, rfl, rfl, rfl⟩

/-- C5 (amended): if `parse_vp9_frame` returns an error, the parser's
`ref_frame_sizes` (the reference-slot state) is unchanged from the start
of the failing frame, because `refresh_ref_frames` — its only writer —
runs after the last fallible step; other parser fields (frame_type,
show_frame, profile, loop-filter fields, ...) may retain partial
mutations made before the error. -/
theorem C5_error_preserves_ref_frame_sizes (s : Vp9Parser) (data : List Nat)
    (s' : Vp9Parser) (e : Vp9ParserError)
    (h : parse_vp9_frame s data = .err s' e) :
    s'.ref_frame_sizes = s.ref_frame_sizes :=
  parse_vp9_frame_err_rfs s data s' e h

theorem C5_error_preserves_ref_frame_sizes_witness :
    (parse_vp9_frame Vp9Parser.default errPacket).isErr = true ∧
      (outState (parse_vp9_frame Vp9Parser.default errPacket)).ref_frame_sizes =
        Vp9Parser.default.ref_frame_sizes :=
  ⟨rfl, C5_error_preserves_ref_frame_sizes Vp9Parser.default errPacket
    (outState (parse_vp9_frame Vp9Parser.default errPacket))
    (outErr (parse_vp9_frame Vp9Parser.default errPacket)) rfl⟩

/-- C6: evaluation of `trailing_bits` (src/lib.rs:1488-1497) at concrete
readers, showing the claim fails on the code: at the UNALIGNED position
1 with a set bit available, the code consumes nothing and succeeds,
whereas the claim requires reading one bit per unaligned position and
raising `Padding` on the set bit; at the byte-ALIGNED position 0 the
code consumes one bit (and raises `Padding` when that bit is one),
whereas the claim requires consuming none.  The loop condition is
`br.is_aligned(1)` where the claimed (and documented: "Aligns the reader
to the next byte offset") behaviour needs `!br.is_aligned(1)`. -/
theorem C6_trailing_bits_inverted_eval :
    trailing_bits ⟨[0xFF], 1⟩ = .ok ⟨[0xFF], 1⟩ ∧
      trailing_bits ⟨[0x00], 0⟩ = .ok ⟨[0x00], 1⟩ ∧
      trailing_bits ⟨[0x80], 0⟩ = .err .InvalidPadding :=
  ⟨rfl, rfl, rfl⟩

/-- C7: evaluation of `tile_info` (src/lib.rs:1448-1467) at concrete
inputs, showing the claim fails on the code.  First input: a state with
`mi_cols = 8` (so `min_log2_tile_cols = 0 = max_log2_tile_cols`) and a
stale `tile_cols_log2 = 5`; the claim requires the final
`tile_cols_log2` to be `min_log2_tile_cols = 0`, but the code assigns
the minimum to `tile_rows_log2` instead and leaves `tile_cols_log2` at
5.  Second input: `mi_cols = 57` (`min = 0`, `max = 1`) with bits
`1100...`; the claimed loop reads ONE bit and stops at
`tile_cols_log2 = 1 = max`, but the code's loop condition tests
`tile_rows_log2`, which never changes, so it keeps reading: it consumes
three bits for the column loop (plus one row bit, position 4) and
increments `tile_cols_log2` to 2. -/
theorem C7_tile_info_wrong_counter_eval :
    calc_min_log2_tile_cols { Vp9Parser.default with mi_cols := 8 } = .ok 0 ∧
      (outState (tile_info { Vp9Parser.default with
            mi_cols := 8, tile_cols_log2 := 5 } ⟨[0x00], 0⟩)).tile_cols_log2 =
        5 ∧
      calc_min_log2_tile_cols { Vp9Parser.default with mi_cols := 57 } =
        .ok 0 ∧
      calc_max_log2_tile_cols { Vp9Parser.default with mi_cols := 57 } =
        .ok 1 ∧
      (outState (tile_info { Vp9Parser.default with mi_cols := 57 }
          ⟨[0xC0], 0⟩)).tile_cols_log2 = 2 ∧
      (outBr (tile_info { Vp9Parser.default with mi_cols := 57 }
          ⟨[0xC0], 0⟩)).pos = 4 :=
  ⟨rfl, rfl, rfl, rfl, rfl, rfl⟩

/-- C8: evaluation of `parse_vp9_frame` on a key-frame payload whose
show_frame bit (bit 6 of byte 0) is 1, showing the claim fails on the
code: the parser's own `show_frame` field does hold the bit that was
read (true), but `Frame::new` (src/lib.rs:456) fills the descriptor's
`show_frame` field from `parser.show_existing_frame`, so the returned
descriptor reports `show_frame = false`. -/
theorem C8_show_frame_miscopied_eval :
    (parse_vp9_frame Vp9Parser.default keyframePacket).isOk = true ∧
      getBit keyframePacket 6 = 1 ∧
      (outState (parse_vp9_frame Vp9Parser.default keyframePacket)).show_frame =
        true ∧
      (outFrame (parse_vp9_frame Vp9Parser.default keyframePacket)).show_frame =
        false :=
  ⟨rfl, rfl, rfl, rfl⟩

/-- C9: evaluation of `Metadata.new`, showing the claim fails on the
code: the input `[1,0, 2,10, 3,8]` has feature ids 1, 2 and 3 but NOT
the required id 4 (chroma subsampling), yet `Metadata::new` succeeds —
src/lib.rs:340 looks up id 1 a second time for `chroma_subsampling`
instead of id 4.  The second input carries id 4 with value 2 (Yuv422),
but the returned chroma subsampling is Yuv444, decoded from the VALUE
OF ID 1 (the profile byte, 3). -/
theorem C9_metadata_id4_not_required_eval :
    Metadata.new [1, 0, 2, 10, 3, 8] =
      .ok ⟨Profile.Profile0, Level.Level1, ColorDepth.Depth8,
        MetadataSubsampling.Yuv420⟩ ∧
      Metadata.new [4, 2, 3, 8, 2, 40, 1, 3] =
        .ok ⟨Profile.Profile3, Level.Level4, ColorDepth.Depth8,
          MetadataSubsampling.Yuv444⟩ :=
  ⟨rfl, rfl⟩

/-- C10: evaluation of `Metadata.new` on the odd-length input `[1]`,
showing the claim fails on the code: the pair-reading loop enters with
`pos = 0 < 1 = len` and `read_feature` indexes `data[pos + 1] = data[1]`
out of bounds — a panic, not a `Metadata` value or an error.  (An
even-length input without the required ids errs cleanly.) -/
theorem C10_metadata_odd_length_panics_eval :
    Metadata.new [1] = .panicked ∧
      Metadata.new [1, 0] = .err .InvalidMetadata :=
  ⟨rfl, rfl⟩

end Vp9
